import Mathlib

/-!
Shallow embedding of the SSOC occupation-code assigner
(src/references/SSOC_assigner_V3.py) and proofs about the claims of the
specification.  Python strings are modelled as Lean `String` (operated on
through `String.data : List Char`), Python floats as exact rationals `Q`,
Python `None`/fallible results as `Option`.  The optional rapidfuzz fast
path for fuzzy string similarity is environment dependent; the embedded
`_diff_ratio_normed` models the stdlib fallback branch of the source
(difflib.SequenceMatcher, whose inputs here are far below the autojunk
threshold of 200 characters, so the junk heuristic is inert).
-/

-- ===================== normalisation and tokenisation =====================

/-- Python whitespace class `\s` (ASCII range, as produced by the pipeline). -/
def pyWSChar (c : Char) : Bool :=
  c.toNat = 32 || c.toNat = 9 || c.toNat = 10 || c.toNat = 13 || c.toNat = 11 || c.toNat = 12

/-- The separator class `[_/,\-()&]` of the second substitution in `_normalize`. -/
def sepChar (c : Char) : Bool :=
  c.toNat = 95 || c.toNat = 47 || c.toNat = 44 || c.toNat = 45 ||
  c.toNat = 40 || c.toNat = 41 || c.toNat = 38

/-- Characters kept by the `[^a-z\s]` deletion step: lowercase ASCII letters. -/
def lowerAZ (c : Char) : Bool := 97 ≤ c.toNat && c.toNat ≤ 122

/-- Python `str.lower` on the ASCII range (the data processed here is ASCII). -/
def pyToLower (c : Char) : Char :=
  if 65 ≤ c.toNat ∧ c.toNat ≤ 90 then Char.ofNat (c.toNat + 32) else c

/-- Helper of `collapseSeps`: the flag records whether the previous character
    was a separator, so that a maximal separator run yields one space. -/
def collapseSepsAux : Bool → List Char → List Char
  | _, [] => []
  | inSep, c :: cs =>
    if sepChar c then
      if inSep then collapseSepsAux true cs
      else ' ' :: collapseSepsAux true cs
    else c :: collapseSepsAux false cs

/-- Replacement of every maximal run of separator characters by one space,
    modelling `re.sub(r"[_/,\-()&]+", " ", t)`. -/
def collapseSeps (l : List Char) : List Char := collapseSepsAux false l

/-- Splitting on whitespace; pieces between whitespace characters, in order
    (empty pieces appear at runs and ends and are filtered by callers). -/
def splitWSAux : List Char → List Char → List (List Char)
  | [], acc => [acc.reverse]
  | c :: cs, acc =>
    if pyWSChar c then acc.reverse :: splitWSAux cs []
    else splitWSAux cs (c :: acc)

/-- The whitespace-delimited words of a character list (Python `str.split()`). -/
def wsWords (l : List Char) : List (List Char) :=
  (splitWSAux l []).filter (fun w => !w.isEmpty)

/-- Joining words with single spaces. -/
def joinWords : List (List Char) → List Char
  | [] => []
  | [w] => w
  | w :: ws => w ++ ' ' :: joinWords ws

/-- The word list produced by the full `_normalize` pipeline: lowercase,
    separator runs to spaces, remove all characters outside `[a-z\s]`,
    then split on whitespace. -/
def normWords (l : List Char) : List (List Char) :=
  wsWords ((collapseSeps (l.map pyToLower)).filter (fun c => lowerAZ c || pyWSChar c))

/-- `_normalize` of the source: lowercase, separator punctuation to spaces,
    strip remaining non-letter characters, collapse whitespace and strip.
    The final `re.sub(r"\s+", " ", t).strip()` is realised as joining the
    whitespace-delimited words with single spaces. -/
def _normalize (s : String) : String :=
  String.mk (joinWords (normWords s.data))

/-- Python `str.strip()` (whitespace strip at both ends). -/
def pyStrip (s : String) : String :=
  String.mk (((s.data.dropWhile pyWSChar).reverse.dropWhile pyWSChar).reverse)

/-- The `_STOP` stopword set of the source. -/
def _STOP : List String :=
  ["responsible", "responsibilities", "duty", "duties", "works", "work", "working",
   "perform", "performing", "including", "include", "includes", "ensure", "ensuring",
   "handle", "handling", "related", "etc", "various", "tasks", "high", "quality",
   "according", "specifications", "required", "standards", "time", "company",
   "superiors", "based", "prepare", "preparing", "progress", "senior", "junior",
   "lead", "sr", "jr"]

/-- Python `str.isdigit()` (ASCII digits; true only on nonempty digit strings). -/
def pyIsDigit (w : String) : Bool :=
  !w.isEmpty && w.data.all (fun c => 48 ≤ c.toNat && c.toNat ≤ 57)

/-- Python `str.split()` of a string. -/
def pySplit (s : String) : List String :=
  (wsWords s.data).map String.mk

/-- `_tokens` / `_tokens_cached`: words of the normalized text with stopwords
    and pure-digit tokens dropped. -/
def _tokens (t : String) : List String :=
  (pySplit (_normalize t)).filter
    (fun w => !w.isEmpty && !(_STOP.contains w) && !pyIsDigit w)

-- ---------------------- exact fractions (Python floats) ----------------------

/-- Exact fraction representation of the Python floating-point scores: an
    integer numerator over a natural denominator, without normalization so
    that every arithmetic operation is a plain structural computation.  All
    fractions built by the embedded code keep a positive denominator:
    literals have one, and sums, products, negations and the guarded
    divisions preserve it.  `Q.toRat` maps a fraction to its rational value;
    the bridging lemmas below identify the comparison operators with the
    rational ones whenever the denominators are positive. -/
structure Q where
  num : Int
  den : Nat
deriving Repr, DecidableEq

instance : OfNat Q n := ⟨⟨n, 1⟩⟩

instance : NatCast Q := ⟨fun n => ⟨n, 1⟩⟩

instance : OfScientific Q :=
  ⟨fun m s e => if s then ⟨(m : Int), 10 ^ e⟩ else ⟨(m : Int) * 10 ^ e, 1⟩⟩

instance : Neg Q := ⟨fun a => ⟨-a.num, a.den⟩⟩

instance : Add Q := ⟨fun a b => ⟨a.num * b.den + b.num * a.den, a.den * b.den⟩⟩

instance : Mul Q := ⟨fun a b => ⟨a.num * b.num, a.den * b.den⟩⟩

instance : Div Q :=
  ⟨fun a b =>
    if b.num = 0 then ⟨0, 1⟩
    else if 0 ≤ b.num then ⟨a.num * b.den, a.den * b.num.natAbs⟩
    else ⟨-(a.num * b.den), a.den * b.num.natAbs⟩⟩

instance : LT Q := ⟨fun a b => a.num * (b.den : Int) < b.num * (a.den : Int)⟩

instance : LE Q := ⟨fun a b => a.num * (b.den : Int) ≤ b.num * (a.den : Int)⟩

instance (a b : Q) : Decidable (a < b) := Int.decLt _ _

instance (a b : Q) : Decidable (a ≤ b) := Int.decLe _ _

instance : Min Q := ⟨fun a b => if b < a then b else a⟩

/-- The rational value of a fraction. -/
def Q.toRat (a : Q) : ℚ := (a.num : ℚ) / (a.den : ℚ)

-- ---------------------- set helpers (Python `set`) ----------------------

/-- Deduplicated-list representation of a Python set of strings. -/
def setOfList (l : List String) : List String := l.dedup

/-- Set intersection (left operand assumed deduplicated). -/
def sInter (a b : List String) : List String := a.filter (fun x => b.contains x)

/-- Set union of deduplicated lists, kept deduplicated. -/
def sUnion (a b : List String) : List String := a ++ b.filter (fun x => !a.contains x)

/-- Set difference. -/
def sDiff (a b : List String) : List String := a.filter (fun x => !b.contains x)

/-- Python `set.isdisjoint`. -/
def sDisjoint (a b : List String) : Bool := a.all (fun x => !b.contains x)

/-- The `_ACTION` hands-on verb set of the source. -/
def _ACTION : List String :=
  ["paint","painting","spray","roller","brush",
   "drive","driving","deliver","delivery","vehicle","goods","fetch","transport",
   "draw","drawing","draft","drafting","autocad","cad","blueprint","plan","planning",
   "survey","surveying","quantify","measurement","measurements","boq",
   "install","installation","assemble","assembly","maintain","maintenance","repair","troubleshoot",
   "weld","welding","operate","operation","machinery","commission","commissioning","calibrate","calibration",
   "cook","cooking","bake","baking","butcher","cut","cutting","plaster","tile","glaze",
   "inspect","inspection","test","testing","audit","auditing",
   "design","designing","configure","configuration","monitor","monitoring",
   "teach","teaching","care","caring","nurse","nursing","treat","treatment","diagnose","diagnosis",
   "clean","cleaning","sanitize","sanitise","wash","washing","polish","polishing","pack","packing","pick","picking"]

/-- `_bigrams` over a token list: adjacent pairs joined by an underscore. -/
def _bigrams : List String → List String
  | a :: b :: rest => (a ++ "_" ++ b) :: _bigrams (b :: rest)
  | _ => []

/-- `_bigrams_from_text`: bigram set of the token list of a text. -/
def _bigrams_from_text (t : String) : List String :=
  setOfList (_bigrams (_tokens t))

/-- `_overlap_measure_sets`: set overlap, Jaccard, and action-verb hit count.
    Both operands are deduplicated lists standing for Python sets. -/
def _overlap_measure_sets (a b : List String) : Q × Q × Nat :=
  if a.isEmpty || b.isEmpty then (0, 0, 0)
  else
    let inter := sInter a b
    let setOv : Q :=
      if 0 < min a.length b.length then
        (inter.length : Q) / (min a.length b.length : Q) else 0
    let jac : Q :=
      if 0 < (sUnion a b).length then
        (inter.length : Q) / ((sUnion a b).length : Q) else 0
    let acts := (sInter inter (setOfList _ACTION)).length
    (setOv, jac, acts)

/-- `_bigram_overlap_sets`. -/
def _bigram_overlap_sets (a b : List String) : Q :=
  if a.isEmpty || b.isEmpty then 0
  else if 0 < min a.length b.length then
    (sInter a b).length / (min a.length b.length : Q)
  else 0

-- ------------------- difflib.SequenceMatcher fallback -------------------

/-- Length of the common prefix of two character lists. -/
def cplLen : List Char → List Char → Nat
  | a :: as', b :: bs' => if a = b then cplLen as' bs' + 1 else 0
  | _, _ => 0

/-- Longest matching block between two character lists: the `(i, j, size)`
    with maximal size, ties broken towards the smallest `i`, then the
    smallest `j`, as in difflib `find_longest_match` without junk. -/
def flmBest (a b : List Char) : Nat × Nat × Nat :=
  (List.range a.length).foldl
    (fun best i =>
      (List.range b.length).foldl
        (fun best2 j =>
          let k := cplLen (a.drop i) (b.drop j)
          if best2.2.2 < k then (i, j, k) else best2)
        best)
    (0, 0, 0)

/-- Total size of the matching blocks (the `M` of difflib ratio), computed by
    the recursive decomposition of `get_matching_blocks`.  The fuel argument
    is instantiated with `a.length + b.length`, which strictly bounds the
    recursion depth since every recursive split removes a nonempty block. -/
def smTotalF : Nat → List Char → List Char → Nat
  | 0, _, _ => 0
  | f + 1, a, b =>
    let ijk := flmBest a b
    if ijk.2.2 = 0 then 0
    else
      smTotalF f (a.take ijk.1) (b.take ijk.2.1) + ijk.2.2 +
      smTotalF f (a.drop (ijk.1 + ijk.2.2)) (b.drop (ijk.2.1 + ijk.2.2))

/-- `_diff_ratio_normed` on already-normalized strings: the difflib
    `SequenceMatcher.ratio`, `2M / T` with `T` the total length (1.0 when
    both strings are empty, as in difflib `_calculate_ratio`). -/
def _diff_ratio_normed (a b : String) : Q :=
  let t := a.data.length + b.data.length
  if t = 0 then 1
  else (2 * (smTotalF t a.data b.data : Q)) / (t : Q)

-- ===================== regular-expression embedding =====================

/-- Abstract syntax of the regular expressions used by the source: character
    classes, sequencing, alternation, repetition, optionality, the anchors
    `^`/`$`, and the word boundary `\b`. -/
inductive Pat where
  | eps
  | cls (cs : List Char)
  | anyc
  | seq (p q : Pat)
  | alt (p q : Pat)
  | star (p : Pat)
  | bnd
  | bos
  | eos
deriving Repr

/-- Python `\w`: alphanumerics and underscore (ASCII, as used on this data). -/
def wordChar (c : Char) : Bool :=
  (97 ≤ c.toNat && c.toNat ≤ 122) || (65 ≤ c.toNat && c.toNat ≤ 90) ||
  (48 ≤ c.toNat && c.toNat ≤ 57) || c.toNat = 95

/-- Whether an optional preceding character is a word character (string start
    counts as a non-word position). -/
def isWordO : Option Char → Bool
  | none => false
  | some c => wordChar c

/-- Whether the next character of the remaining input is a word character. -/
def isWordHead : List Char → Bool
  | [] => false
  | c :: _ => wordChar c

/-- Nondeterministic matcher: all ways for a pattern to consume a prefix of
    the input, as pairs of (character just before the remaining input,
    remaining input).  `prev` is the character before the current position
    (`none` at string start), needed for `\b` and `^`.  Repetition steps that
    consume no input are cut off; every starred subpattern of the embedded
    rules consumes at least one character per iteration, and the fuel (set to
    the input length plus one by `psearchAux`) then never runs out. -/
def pmatch : Nat → Pat → Option Char → List Char → List (Option Char × List Char)
  | 0, _, _, _ => []
  | fuel + 1, p, pr, s =>
    match p with
    | .eps => [(pr, s)]
    | .cls cs =>
      (match s with
       | [] => []
       | c :: rest => if cs.contains c then [(some c, rest)] else [])
    | .anyc =>
      (match s with
       | [] => []
       | c :: rest => [(some c, rest)])
    | .seq p1 q1 => (pmatch fuel p1 pr s).flatMap (fun pr2 => pmatch fuel q1 pr2.1 pr2.2)
    | .alt p1 q1 => pmatch fuel p1 pr s ++ pmatch fuel q1 pr s
    | .star p1 =>
      (pr, s) ::
        (pmatch fuel p1 pr s).flatMap
          (fun pr2 =>
            if pr2.2.length < s.length then pmatch fuel (.star p1) pr2.1 pr2.2 else [])
    | .bnd => if isWordO pr != isWordHead s then [(pr, s)] else []
    | .bos => if pr.isNone then [(pr, s)] else []
    | .eos => if s.isEmpty then [(pr, s)] else []

/-- Node count of a pattern, used to bound the matcher recursion depth. -/
def psize : Pat → Nat
  | .eps | .cls _ | .anyc | .bnd | .bos | .eos => 1
  | .seq p q | .alt p q => psize p + psize q + 1
  | .star p => psize p + 1

/-- A fuel amount that the matcher can never exhaust on the given input:
    every recursive call decrements the fuel by one, pattern descent is
    bounded by the node count, and every repetition step consumes at least
    one input character. -/
def pfuel (p : Pat) (s : List Char) : Nat := (psize p + 1) * (s.length + 2)

/-- Search helper: try to match at the current position, else advance. -/
def psearchAux (p : Pat) : Option Char → List Char → Bool
  | pr, s =>
    !(pmatch (pfuel p s) p pr s).isEmpty ||
      (match s with
       | [] => false
       | c :: rest => psearchAux p (some c) rest)

/-- `rx.search(text)` of the `re` module: does the pattern match anywhere. -/
def psearch (p : Pat) (s : String) : Bool := psearchAux p none s.data

/-- `re.match(rx, text)`: does the pattern match at the start of the text. -/
def pmatchStart (p : Pat) (s : String) : Bool :=
  !(pmatch (pfuel p s.data) p none s.data).isEmpty

-- pattern-building helpers mirroring the regex notation
/-- Literal character sequence. -/
def Pat.str (s : String) : Pat :=
  s.data.foldr (fun c acc => Pat.seq (Pat.cls [c]) acc) Pat.eps

/-- Character class from the characters of a string. -/
def Pat.chars (s : String) : Pat := Pat.cls s.data

/-- Sequence of a list of patterns. -/
def Pat.seqs (l : List Pat) : Pat := l.foldr Pat.seq Pat.eps

/-- Alternation of a list of patterns (empty alternation never matches,
    encoded as an empty character class). -/
def Pat.alts : List Pat → Pat
  | [] => Pat.cls []
  | [p] => p
  | p :: ps => Pat.alt p (Pat.alts ps)

/-- `p?`. -/
def Pat.opt (p : Pat) : Pat := Pat.alt p Pat.eps

/-- `p+`. -/
def Pat.pls (p : Pat) : Pat := Pat.seq p (Pat.star p)

/-- `\s` as a pattern. -/
def Pat.wsp : Pat := Pat.cls [' ', '\t', '\n', '\r', Char.ofNat 11, Char.ofNat 12]

/-- `\s+`. -/
def Pat.wsP : Pat := Pat.pls Pat.wsp

/-- `\s*`. -/
def Pat.wsS : Pat := Pat.star Pat.wsp

/-- `\d`. -/
def Pat.dig : Pat := Pat.cls ['0','1','2','3','4','5','6','7','8','9']

/-- `\w`. -/
def Pat.wrd : Pat :=
  Pat.cls (("abcdefghijklmnopqrstuvwxyz".data ++ "ABCDEFGHIJKLMNOPQRSTUVWXYZ".data) ++
           "0123456789_".data)

/-- A whole word: `\b s \b`. -/
def Pat.word (s : String) : Pat := Pat.seqs [Pat.bnd, Pat.str s, Pat.bnd]

/-- `\b(w1|w2|...)\b` for a list of literal alternatives. -/
def Pat.wordAlts (l : List String) : Pat :=
  Pat.seqs [Pat.bnd, Pat.alts (l.map Pat.str), Pat.bnd]

-- ===================== sector anchors and lexicons =====================

/-- Python substring membership `needle in hay` on character lists. -/
def startsWithL : List Char → List Char → Bool
  | [], _ => true
  | _ :: _, [] => false
  | a :: as', b :: bs' => a = b && startsWithL as' bs'

/-- Substring occurrence of `needle` in `hay`. -/
def isSubL (needle : List Char) : List Char → Bool
  | [] => needle.isEmpty
  | c :: rest => startsWithL needle (c :: rest) || isSubL needle rest

/-- Python `needle in hay` for strings. -/
def pyIn (needle hay : String) : Bool := isSubL needle.data hay.data

/-- Python `s.startswith(pre)`. -/
def pyStartsWith (s pre : String) : Bool := startsWithL pre.data s.data

/-- Python slicing `s[:n]`. -/
def pySliceTo (s : String) (n : Nat) : String := String.mk (s.data.take n)

/-- `SECTOR_ANCHORS` of the source, in declaration order. -/
def SECTOR_ANCHORS : List (String × List String) :=
  [("managers", ["manager","managing","director","chief","executive","ceo","coo","cfo","cio","cto","chairman","board",
                 "general","governance","policy","strategic","strategy","planning","budget","kpi","targets"]),
   ("construction", ["construction","building","worksite","site","scaffolding","concrete","formwork","rebar","excavation",
                     "tunnel","pile","piling","draught","draft","autocad","bim","fitout","renovation","tiling","plaster",
                     "glazier","roof","roofer","carpentry","joinery","brick","masonry","drywall","mep","plant","crane",
                     "rigger","architectural","structural","clerk_of_works","quantity","boq","drafter","foreman","superintendent"]),
   ("mfg", ["manufacturing","production","factory","cnc","machining","lathe","milling","tooling","assembly","assembler","process",
            "commissioning","calibration","maintenance","quality","qa","qc","line","plant","operator"]),
   ("mfg_electronics", ["semiconductor","wafer","fab","cleanroom","esd","pcb","smt","solder","bonding","die","ic","mems"]),
   ("mfg_chemical", ["chemical","refinery","petrochemical","reactor","polymer","adhesive","paint","coating","distillation","blending"]),
   ("mfg_food", ["central","kitchen","slaughter","butcher","baking","brewery","distillery","dairy","confectionery","haccp","halal"]),
   ("transport", ["driver","driving","deliver","delivery","route","dispatch","passengers","taxi","private","hire","van","lorry",
                  "truck","trailer","prime","mover","bus","train","rail","mrt","station","cargo","freight"]),
   ("logistics", ["logistics","warehouse","storekeeper","storeman","inventory","stock","picking","packing","forklift","reachtruck",
                  "yard","dc","hub","port","quay","container","manifest","awb","bonded"]),
   ("aviation_marine", ["pilot","aircraft","airline","cabin","steward","airport","runway","marine","ship","vessel","deckhand","tug"]),
   ("retail", ["retail","shop","store","outlet","cashier","pos","merchandising","category","showroom","sales","salesperson",
               "sales assistant","shop assistant","customer","service","counter","boutique","mall","department"]),
   ("hospitality", ["hotel","housekeeping","linen","guest","room","butler","steward","concierge","banquet","lodging","resort","front office","guest relations"]),
   ("travel", ["travel","tourism","tour","ticketing","visa","booking","hotel","resort",
               "itinerary","tourist","guest services","attraction","cruise"]),
   ("fnb", ["restaurant","cafe","catering","kitchen","cook","chef","pastry","baker","barista","bartender","stewarding","menu"]),
   ("ict", ["software","developer","programmer","devops","application","system","database","data","network","server","cloud",
            "security","cyber","infrastructure","telecom","ai","ml","testing","qa","product manager","architect","api",
            "frontend","backend","fullstack","ui","ux","scrum","agile"]),
   ("arts_media", ["gallery","museum","curator","artist","designer","graphic","multimedia","animation","photography","broadcast",
                   "radio","television","film","editor","content","journalist","reporter","pr","copywriter","printing","orchestra","choir"]),
   ("engineering", ["engineer","mechanical","electrical","electronics","civil","chemical","environmental","biomedical",
                    "process","quality","industrial","production","maintenance","commissioning","calibration","design","workshop"]),
   ("finance", ["accounting","accounts","accountant","audit","auditor","tax","treasury","compliance","risk","bank","banking",
                "loan","credit","underwriting","portfolio","fund","valuation","actuarial","insurer","insurance","payroll","ledger"]),
   ("legal", ["law","lawyer","legal","solicitor","advocate","counsel","paralegal","court","litigation","regulatory"]),
   ("public_admin", ["ministry","statutory","board","government","regulatory","policy","planning","licensing","immigration",
                     "customs","public service","civil service"]),
   ("education", ["school","teacher","teaching","student","classroom","lecturer","trainer","polytechnic","university","tutor","curriculum","syllabus","preschool"]),
   ("healthcare", ["patient","ward","clinic","hospital","nursing","physician","dentist","pharmacy","therapist","diagnostic",
                   "radiography","laboratory","rehabilitation","paramedic","medical","surgeon","doctor","allied health"]),
   ("social", ["social","counsellor","counselling","community","youth","family","casework","welfare","outreach","volunteer"]),
   ("cleaning", ["cleaning","cleaner","janitor","sanitation","disinfection","premises","landscape","conservancy","sweeping","mopping","dishwasher"]),
   ("security", ["security","guard","patrol","cctv","command centre","incident","auxiliary","police","prison","investigator","lifeguard","fire rescue"]),
   ("agri", ["farm","agriculture","horticulture","landscape","nursery","aquaculture","poultry","livestock","gardener","tree"]),
   ("beauty", ["beautician","makeup","manicurist","pedicurist","spa","massage","therapist","hairdresser","barber","cosmetology"]),
   ("waste_env", ["waste","recycling","material recovery","grease","collection","environmental","sanitarian","hygiene"]),
   ("arch_design", ["architect","architecture","urban","town","planner","planning","survey","surveyor","cad","bim","draughtsman","draughtsperson","drafter","interior","product design","landscape architect"]),
   ("electrical", ["electrician","electrical","wiring","switchboard","conduit","cable pulling","testing and commissioning"]),
   ("fitness_instruction", ["instructor","fitness","coach","gym","studio","personal trainer",
                            "martial arts","yoga","pilates","zumba","training","mentorship"])]

/-- `_sector_cues_from_text`: the sectors whose anchors appear in the text
    (multi-word anchors as substrings of the normalized text, single-token
    anchors as members of the token set). -/
def _sector_cues_from_text (text : String) : List String :=
  let toksSet := setOfList (_tokens text)
  let lower := _normalize text
  (SECTOR_ANCHORS.filter (fun sa =>
    sa.2.any (fun a =>
      let aNorm := _normalize (String.mk (a.data.map (fun c => if c = '_' then ' ' else c)))
      if aNorm.data.contains ' ' then pyIn aNorm lower else toksSet.contains aNorm))).map
    (fun sa => sa.1)

/-- `ROLE_ANCHORS` of the source. -/
def ROLE_ANCHORS : List String :=
  ["driver","painter","drafter","draftsman","draftsperson","installer","fitter","welder",
   "cook","chef","butcher","baker","barista","bartender",
   "supervisor","foreman","manager","director","coordinator","engineer","technician",
   "accountant","accounts","payroll","auditor","tax","admin","clerk","assistant","receptionist",
   "teacher","lecturer","nurse","therapist","security","guard","cleaner","housekeeper","steward","butler",
   "salesman","sales","promoter","executive","storekeeper","storeman","principal","doctor","lawyer","architect"]

/-- `_role_anchor_overlap`. -/
def _role_anchor_overlap (query_text candidate_title_and_blob : String) : Nat :=
  let q := sInter (setOfList (_tokens query_text)) ROLE_ANCHORS
  let c := sInter (setOfList (_tokens candidate_title_and_blob)) ROLE_ANCHORS
  (sInter q c).length

-- ===================== scoring keyword tables and cue patterns =====================

/-- `_SUPERVISORY_TOKENS`. -/
def _SUPERVISORY_TOKENS : List String :=
  ["supervisor", "supervise", "supervising", "supervision",
   "foreman", "foremen", "manager", "managers", "managing",
   "head", "chief", "lead", "leader", "oversee", "overseeing",
   "coordinating", "coordination", "directing", "director",
   "superintendent"]

/-- `_SUPERVISE_CUES_IN_QUERY`. -/
def _SUPERVISE_CUES_IN_QUERY : List String :=
  ["supervise","supervision","manage","oversee","lead","coordinate","assign","schedule",
   "train","coach","report","budget","plan","crew","team"]

/-- `_VEHICLE_CUES`. -/
def _VEHICLE_CUES : Pat :=
  Pat.wordAlts ["auto","car","vehicle","motor","automotive","bodyshop","panel","bumper","spray booth"]

/-- `_BUILDING_PAINT_CUES` (the façade alternative keeps its non-ASCII letter). -/
def _BUILDING_PAINT_CUES : Pat :=
  Pat.seqs [Pat.bnd,
    Pat.alts [Pat.str "wall", Pat.str "walls", Pat.str "ceiling", Pat.str "ceilings",
              Pat.str "facade", Pat.str "façade", Pat.str "interior", Pat.str "exterior",
              Pat.str "building", Pat.str "structure", Pat.str "premises", Pat.str "floor",
              Pat.str "room", Pat.seqs [Pat.str "unit", Pat.opt (Pat.str "s")]],
    Pat.bnd]

/-- `_ARTS_MEDIA_CUES`. -/
def _ARTS_MEDIA_CUES : Pat :=
  Pat.seqs [Pat.bnd,
    Pat.alts [Pat.str "orchestra", Pat.str "choir", Pat.str "stage", Pat.str "film",
              Pat.str "theatre", Pat.str "theater", Pat.str "shoot", Pat.str "broadcast",
              Pat.str "studio", Pat.str "gallery", Pat.str "museum", Pat.str "curator",
              Pat.str "composer", Pat.str "conductor",
              Pat.seqs [Pat.str "perform", Pat.alt (Pat.str "ing") (Pat.str "ance")],
              Pat.str "band"],
    Pat.bnd]

/-- `_HOSPITALITY_CUES`. -/
def _HOSPITALITY_CUES : Pat :=
  Pat.wordAlts ["hotel","resort","guest","housekeeping","butler","steward","banquet",
                "front office","concierge","lodging"]

/-- `_GAMING_CUES`. -/
def _GAMING_CUES : Pat :=
  Pat.seqs [Pat.bnd,
    Pat.alts [Pat.str "casino", Pat.str "gaming", Pat.str "pit boss",
              Pat.seqs [Pat.str "table", Pat.opt (Pat.str "s")], Pat.str "jackpot",
              Pat.seqs [Pat.str "slot", Pat.opt (Pat.str "s")]],
    Pat.bnd]

/-- `_SPORTS_CUES`. -/
def _SPORTS_CUES : Pat :=
  Pat.seqs [Pat.bnd,
    Pat.alts [Pat.seqs [Pat.str "sport", Pat.opt (Pat.str "s")], Pat.str "stadium",
              Pat.str "arena", Pat.str "gym", Pat.str "fitness", Pat.str "leisure",
              Pat.str "recreation", Pat.str "club"],
    Pat.bnd]

/-- `_MARKETING_CUES`. -/
def _MARKETING_CUES : Pat :=
  Pat.seqs [Pat.bnd,
    Pat.alts [Pat.str "marketing", Pat.str "brand", Pat.str "branding", Pat.str "campaign",
              Pat.seqs [Pat.str "advertis", Pat.alt (Pat.str "e") (Pat.str "ing")],
              Pat.seqs [Pat.str "digital", Pat.wsP, Pat.str "marketing"]],
    Pat.bnd]

/-- `_CONSTRUCTION_LABOUR_CUES`. -/
def _CONSTRUCTION_LABOUR_CUES : Pat :=
  Pat.seqs [Pat.bnd,
    Pat.alts [Pat.seqs [Pat.str "work", Pat.opt Pat.wsp, Pat.str "site"],
              Pat.str "worksite",
              Pat.seqs [Pat.str "cleaning work", Pat.opt Pat.wsp, Pat.str "site", Pat.opt (Pat.str "s")],
              Pat.seqs [Pat.str "remove ", Pat.opt (Pat.str "site "), Pat.str "obstructions"],
              Pat.str "debris", Pat.str "demolition", Pat.str "trench", Pat.str "scaffold",
              Pat.str "construction", Pat.str "site"],
    Pat.bnd]

/-- `_ELECTRICIAN_CUES`. -/
def _ELECTRICIAN_CUES : Pat :=
  Pat.seqs [Pat.bnd,
    Pat.alts [Pat.str "electrician", Pat.str "electrical wiring",
              Pat.seqs [Pat.str "install", Pat.alt (Pat.str "ing") (Pat.str "ation"),
                        Pat.str " electrical"],
              Pat.str "switchboard", Pat.str "cable pulling", Pat.str "cabling"],
    Pat.bnd]

/-- `_DRAFTER_CUES`. -/
def _DRAFTER_CUES : Pat :=
  Pat.seqs [Pat.bnd,
    Pat.alts [Pat.str "autocad", Pat.str "auto-cad", Pat.str "cad", Pat.str "drafter",
              Pat.seqs [Pat.str "draft", Pat.opt (Pat.str "s"), Pat.str "man"],
              Pat.str "draftsperson", Pat.str "bim",
              Pat.seqs [Pat.str "shop drawing", Pat.opt (Pat.str "s")],
              Pat.seqs [Pat.str "technical drawing", Pat.opt (Pat.str "s")],
              Pat.seqs [Pat.str "layout", Pat.opt (Pat.str "s")]],
    Pat.bnd]

/-- `_ADMIN_MANAGER_CUES`. -/
def _ADMIN_MANAGER_CUES : Pat :=
  Pat.seqs [Pat.bnd,
    Pat.alts [Pat.seqs [Pat.str "manage",
                        Pat.opt (Pat.alts [Pat.str "s", Pat.str "d", Pat.str "ment"]),
                        Pat.str " ",
                        Pat.alts [Pat.seqs [Pat.str "admin", Pat.opt (Pat.str "istration")],
                                  Pat.str "team", Pat.str "department"]],
              Pat.str "oversee admin", Pat.str "lead admin"],
    Pat.bnd]

/-- `_CONSULTING_CUES`. -/
def _CONSULTING_CUES : Pat :=
  Pat.seqs [Pat.bnd,
    Pat.alts [Pat.seqs [Pat.str "consult", Pat.alt (Pat.str "ant") (Pat.str "ing")],
              Pat.str "advisory", Pat.str "strategy engagement", Pat.str "diagnostic study"],
    Pat.bnd]

/-- `_ATTRACTIONS_CUES`. -/
def _ATTRACTIONS_CUES : Pat :=
  Pat.seqs [Pat.bnd,
    Pat.alts [Pat.seqs [Pat.str "attraction", Pat.opt (Pat.str "s")],
              Pat.str "theme park", Pat.str "zoo", Pat.str "park manager",
              Pat.str "nature park", Pat.str "botanic"],
    Pat.bnd]

/-- `_POLITICAL_CUES`. -/
def _POLITICAL_CUES : Pat :=
  Pat.seqs [Pat.bnd,
    Pat.alts [Pat.seqs [Pat.str "party ",
                        Pat.alts [Pat.str "official", Pat.str "organisation", Pat.str "organization"]],
              Pat.str "political party", Pat.str "secretariat", Pat.str "central committee",
              Pat.str "grassroots", Pat.str "constituency"],
    Pat.bnd]

/-- `_JUNIOR_TITLE_CUES`. -/
def _JUNIOR_TITLE_CUES : List String :=
  ["executive", "assistant", "asst", "associate", "clerk", "coordinator", "junior", "attendant"]

/-- `_WELLNESS_CUES`. -/
def _WELLNESS_CUES : Pat :=
  Pat.wordAlts ["wellness","spa","fitness","health","therapy","recreation"]

/-- `ROLE_CLUSTERS`, in declaration order. -/
def ROLE_CLUSTERS : List (String × List String) :=
  [("project_management",
    ["project", "planning", "schedule", "scheduling", "coordination", "delivery",
     "timeline", "milestones", "operations"]),
   ("sales_business_development",
    ["sales", "business development", "bizdev", "account management", "client acquisition",
     "revenue", "growth", "leads", "pipeline"]),
   ("data_analysis",
    ["data", "analytics", "reporting", "dashboard", "insights", "metrics", "kpi",
     "business intelligence", "bi"]),
   ("customer_support",
    ["customer service", "support", "helpdesk", "client relations", "technical support",
     "issue resolution", "troubleshooting"]),
   ("finance_accounting",
    ["finance", "accounting", "bookkeeping", "ledger", "invoicing", "payroll",
     "accounts payable", "ap", "accounts receivable", "ar", "financial reporting", "audit", "tax"]),
   ("marketing_communications",
    ["marketing", "communications", "comms", "public relations", "pr", "branding",
     "campaigns", "content", "social media", "digital marketing"]),
   ("quality_assurance",
    ["quality", "qa", "qc", "quality control", "quality assurance", "testing",
     "inspection", "compliance", "standards"]),
   ("supply_chain_logistics",
    ["logistics", "supply chain", "procurement", "purchasing", "sourcing", "inventory",
     "shipping", "freight", "warehouse"]),
   ("creative_design",
    ["design", "graphic", "ui", "ux", "user interface", "user experience", "visual",
     "creative", "illustration"])]

/-- `_CORPORATE_MANAGER_CODES`. -/
def _CORPORATE_MANAGER_CODES : List String := ["12111", "12121", "13301", "24111"]

/-- `_CORPORATE_FUNCTION_KEYWORDS`. -/
def _CORPORATE_FUNCTION_KEYWORDS : List String :=
  ["finance", "financial", "accounting", "audit", "tax", "treasury", "risk",
   "hr", "human resource", "payroll", "recruitment", "talent",
   "it", "ict", "software", "network", "cybersecurity", "infrastructure"]

/-- `_OPERATIONAL_CONTEXT_KEYWORDS`. -/
def _OPERATIONAL_CONTEXT_KEYWORDS : List String :=
  ["workshop", "factory", "site", "production", "plant", "construction",
   "repair", "maintenance", "vehicle", "machinery"]

/-- `_TEXTILE_MACHINE_KEYWORDS`. -/
def _TEXTILE_MACHINE_KEYWORDS : List String :=
  ["sewing", "garment", "textile", "fabric", "stitching", "embroidery", "overlock"]

/-- `_MARINE_CONTEXT_KEYWORDS`. -/
def _MARINE_CONTEXT_KEYWORDS : List String :=
  ["marine", "maritime", "ship", "ships", "vessel", "vessels",
   "shipyard", "deck", "hull", "offshore"]

/-- Keys of `_MACHINE_OPERATOR_PENALTY_CODES`. -/
def _MACHINE_OPERATOR_PENALTY_CODES : List String := ["72231", "81531"]

/-- `_TECHNICAL_KEYWORDS`. -/
def _TECHNICAL_KEYWORDS : List String :=
  ["cnc", "cam", "cad", "machining", "machinist", "lathe", "milling", "grinding", "fabrication",
   "welding", "g-code", "m-code", "mastercam", "solidworks", "autocad", "unigraphics",
   "3d model", "setter", "operator", "programmer"]

/-- `_GENERIC_ENGINEERING_TOKENS`. -/
def _GENERIC_ENGINEERING_TOKENS : List String :=
  ["engineer", "engineering", "technical", "technician", "design", "develop",
   "specifications", "testing", "analysis", "solutions", "consultancy"]

/-- `HIGH_VALUE_KEYWORDS`. -/
def HIGH_VALUE_KEYWORDS : List String :=
  ["system", "systems", "software", "embedded", "network", "database", "cloud",
   "security", "cyber", "mechanical", "electrical", "civil", "structural",
   "chemical", "optical", "materials",
   "cnc", "cam", "cad", "machining", "machinist", "lathe", "milling", "fabrication",
   "welding", "g-code", "solidworks", "autocad"]

/-- `_DRAFTER_DISCIPLINES`, in dict insertion order: name, keyword set, code. -/
def _DRAFTER_DISCIPLINES : List (String × List String × String) :=
  [("civil", (["civil", "structural", "construction", "building"], "31183")),
   ("electrical", (["electrical", "power", "switchboard"], "31182")),
   ("mechanical", (["mechanical", "piping", "hvac", "acmv", "workshop"], "31181")),
   ("architectural", (["architectural", "floor plan", "elevation", "interior", "architect"], "31184"))]

/-- `_SUBORDINATE_PHRASE_RX` (case-insensitive; callers pass lowercased text). -/
def _SUBORDINATE_PHRASE_RX : Pat :=
  Pat.seqs [Pat.bnd,
    Pat.alts [Pat.seqs [Pat.str "assist", Pat.opt (Pat.str "ing")],
              Pat.seqs [Pat.str "support", Pat.opt (Pat.str "ing")],
              Pat.seqs [Pat.str "report", Pat.opt (Pat.str "ing"), Pat.wsP,
                        Pat.str "t", Pat.opt (Pat.str "o")]],
    Pat.wsP,
    Pat.opt (Pat.seqs [Pat.pls Pat.wrd, Pat.wsP,
                       Pat.opt (Pat.seqs [Pat.pls Pat.wrd, Pat.wsP])]),
    Pat.alts [Pat.str "director", Pat.str "manager", Pat.str "ceo", Pat.str "chief"],
    Pat.bnd]

/-- `_DIRECTOR_LEVEL_CODES`. -/
def _DIRECTOR_LEVEL_CODES : List String := ["11201", "11203"]

/-- `_GENERIC_TITLE_KEYWORDS`. -/
def _GENERIC_TITLE_KEYWORDS : List String :=
  ["associate", "assistant", "executive", "officer", "specialist",
   "professional", "staff", "clerk", "assoc", "prof",
   "senior", "junior", "lead", "principal"]

/-- `_SOFTWARE_SYSTEMS_KEYWORDS`. -/
def _SOFTWARE_SYSTEMS_KEYWORDS : List String :=
  ["system", "systems", "software", "embedded", "network", "database", "cloud",
   "security", "cyber", "application", "it"]

/-- `_PHYSICAL_SCIENCES_KEYWORDS`. -/
def _PHYSICAL_SCIENCES_KEYWORDS : List String :=
  ["materials", "chemical", "civil", "structural", "optical", "mechanical", "mining", "petroleum"]

/-- `_SAFETY_DISCIPLINES`, in dict insertion order. -/
def _SAFETY_DISCIPLINES : List (String × List String × String) :=
  [("occupational_health", (["occupational", "health", "wsh", "workplace", "ergonomics", "risk assessment"], "32572")),
   ("industrial_engineering", (["industrial", "factory", "plant", "manufacturing", "machinery", "construction", "engineer"], "21493")),
   ("fire", (["fire", "alarm", "sprinkler", "extinguisher", "evacuation", "scdf"], "31711")),
   ("product_vehicle", (["vehicle", "automotive", "product", "process", "quality", "component"], "31720"))]

/-- `_DIGITAL_DESIGN_KEYWORDS`. -/
def _DIGITAL_DESIGN_KEYWORDS : List String :=
  ["digital", "graphic", "multimedia", "web", "ui", "ux", "marketing",
   "visual content", "branding", "illustrator", "photoshop", "figma"]

/-- `_SPECIFIC_INDUSTRY_MANAGER_CODES` (keys of the dict). -/
def _SPECIFIC_INDUSTRY_MANAGER_CODES : List String :=
  ["13210", "14121", "14201", "14310", "14323", "14329", "14324"]

/-- `_GUARDED_SECTORS`. -/
def _GUARDED_SECTORS : List (String × Q) :=
  [("healthcare", 0.45), ("education", 0.55), ("hospitality", 0.55), ("diplomatic", 0.35),
   ("security", 0.55), ("arts_media", 0.60), ("travel", 0.50)]

-- ===================== taxonomy record =====================

/-- A taxonomy entry as loaded by `load_definitions`: the stored columns.
    The derived fields of the Python record (`title_norm`, `blob_norm`,
    token/bigram sets, `sector_cues`, `is_5d`) are precomputed there by pure
    functions of these columns and are modelled as the functions below. -/
structure TaxRec where
  code : String
  title : String
  search_text : String
  all_title_variations : List String
deriving Repr, DecidableEq

/-- Derived `title_norm`. -/
def recTitleNorm (r : TaxRec) : String := _normalize r.title

/-- Derived `blob_norm`. -/
def recBlobNorm (r : TaxRec) : String := _normalize r.search_text

/-- Derived `title_tokens_set` (unused by the scorer but kept for parity). -/
def recTitleTokens (r : TaxRec) : List String := setOfList (_tokens (recTitleNorm r))

/-- Derived `blob_tokens_set`. -/
def recBlobTokens (r : TaxRec) : List String := setOfList (_tokens (recBlobNorm r))

/-- Derived `blob_bigrams`. -/
def recBlobBigrams (r : TaxRec) : List String := _bigrams_from_text (recBlobNorm r)

/-- Derived `sector_cues`. -/
def recSectorCues (r : TaxRec) : List String :=
  _sector_cues_from_text (recTitleNorm r ++ " " ++ recBlobNorm r)

/-- A 5-digit leaf code: `code.isdigit() and len(code) == 5`. -/
def is5dCode (code : String) : Bool := pyIsDigit code && code.length == 5

/-- Derived `is_5d` of a record. -/
def recIs5d (r : TaxRec) : Bool := is5dCode r.code

-- ===================== scoring modifiers =====================

/-- `_design_discipline_penalty`. -/
def _design_discipline_penalty (candidate_code query_text : String) : Q :=
  if candidate_code ≠ "34321" then 1.0
  else
    let qToks := setOfList (_tokens query_text)
    if !(sDisjoint qToks _DIGITAL_DESIGN_KEYWORDS) then 0.10 else 1.0

/-- `_machinist_drafter_penalty`. -/
def _machinist_drafter_penalty (candidate_code query_text : String) : Q :=
  if !(pyStartsWith candidate_code "3118") then 1.0
  else
    let qToks := setOfList (_tokens query_text)
    let machining_cues : List String := ["cnc", "machining", "machinist", "lathe", "milling", "setter"]
    if !(sDisjoint qToks machining_cues) then 0.15 else 1.0

/-- First maximal entry of a nonempty association list, as Python `max` with
    a key function over dict iteration order (first occurrence wins ties). -/
def firstMaxBy (l : List (String × Nat)) : String × Nat :=
  match l with
  | [] => ("", 0)
  | h :: t => t.foldl (fun b x => if b.2 < x.2 then x else b) h

/-- `_safety_discipline_handler`. -/
def _safety_discipline_handler (candidate_code query_text : String) : Q :=
  let qToks := setOfList (_tokens query_text)
  if !(qToks.contains "safety") then 1.0
  else
    let scores := _SAFETY_DISCIPLINES.map (fun d => (d.1, (sInter qToks d.2.1).length))
    if scores.all (fun s => s.2 = 0) then
      if candidate_code = "32573" then 1.20 else 1.0
    else
      let winning := (firstMaxBy scores).1
      let winningCode :=
        (((_SAFETY_DISCIPLINES.find? (fun d => d.1 = winning)).map (fun d => d.2.2)).getD "")
      if candidate_code = winningCode then 1.50
      else if (_SAFETY_DISCIPLINES.map (fun d => d.2.2)).contains candidate_code then 0.20
      else 1.0

/-- `_marine_context_penalty`. -/
def _marine_context_penalty (candidate_rec : TaxRec) (query_text : String) : Q :=
  let qToks := setOfList (_tokens query_text)
  if sDisjoint qToks _MARINE_CONTEXT_KEYWORDS then 1.0
  else if !((recSectorCues candidate_rec).contains "aviation_marine") then 0.05
  else 1.0

/-- `_score_title_similarity`: best Jaccard across all title variations after
    stripping generic title keywords from both sides. -/
def _score_title_similarity (input_title_text : String) (candidate_rec : TaxRec) : Q :=
  let inputToks := setOfList (_tokens input_title_text)
  let filteredInput := sDiff inputToks _GENERIC_TITLE_KEYWORDS
  if filteredInput.isEmpty then 0.0
  else
    let variations := candidate_rec.all_title_variations
    if variations.isEmpty then 0.0
    else
      variations.foldl
        (fun maxScore variation =>
          let candToks := setOfList (_tokens variation)
          let filteredCand := sDiff candToks _GENERIC_TITLE_KEYWORDS
          if filteredCand.isEmpty then maxScore
          else
            let interN := (sInter filteredInput filteredCand).length
            let unionN := (sUnion filteredInput filteredCand).length
            if unionN = 0 then maxScore
            else
              let jaccard : Q := (interN : Q) / (unionN : Q)
              if maxScore < jaccard then jaccard else maxScore)
        0.0

/-- `_drafter_discipline_handler`. -/
def _drafter_discipline_handler (candidate_code query_text : String) : Q :=
  let qNorm := _normalize query_text
  if !(psearch _DRAFTER_CUES qNorm) then 1.0
  else
    let qToks := setOfList (_tokens qNorm)
    let scores := _DRAFTER_DISCIPLINES.map (fun d => (d.1, (sInter qToks d.2.1).length))
    if scores.all (fun s => s.2 = 0) then 1.0
    else
      let winning := (firstMaxBy scores).1
      let winningCode :=
        (((_DRAFTER_DISCIPLINES.find? (fun d => d.1 = winning)).map (fun d => d.2.2)).getD "")
      if candidate_code = winningCode then 1.50
      else if (_DRAFTER_DISCIPLINES.map (fun d => d.2.2)).contains candidate_code then 0.20
      else 1.0

/-- `_corporate_manager_penalty`. -/
def _corporate_manager_penalty (candidate_code query_text query_title : String) : Q :=
  if !(_CORPORATE_MANAGER_CODES.contains candidate_code) then 1.0
  else
    let qToks := setOfList (_tokens query_text)
    if !(sDisjoint qToks _OPERATIONAL_CONTEXT_KEYWORDS) then 0.15
    else
      let normTitle := _normalize query_title
      let isTitleGeneric := normTitle = "manager" || normTitle = "general manager"
      if isTitleGeneric && sDisjoint qToks _CORPORATE_FUNCTION_KEYWORDS then 0.20
      else 1.0

/-- `_score_engineer_context`. -/
def _score_engineer_context (query_text candidate_text : String) : Q :=
  let qToks := setOfList (_tokens query_text)
  let cToks := setOfList (_tokens candidate_text)
  let qDiff := sDiff qToks _GENERIC_ENGINEERING_TOKENS
  let cDiff := sDiff cToks _GENERIC_ENGINEERING_TOKENS
  if qDiff.isEmpty || cDiff.isEmpty then 0.0
  else
    let interN := (sInter qDiff cDiff).length
    let unionN := (sUnion qDiff cDiff).length
    if 0 < unionN then (interN : Q) / (unionN : Q) else 0.0

/-- `_score_manager_context`. -/
def _score_manager_context (query_text candidate_text : String) : Q :=
  let qToks := setOfList (_tokens query_text)
  let cToks := setOfList (_tokens candidate_text)
  let qDiff := sDiff qToks _SUPERVISORY_TOKENS
  let cDiff := sDiff cToks _SUPERVISORY_TOKENS
  if qDiff.isEmpty || cDiff.isEmpty then 0.0
  else
    let interN := (sInter qDiff cDiff).length
    let unionN := (sUnion qDiff cDiff).length
    if 0 < unionN then (interN : Q) / (unionN : Q) else 0.0

/-- `_machine_operator_context_penalty`. -/
def _machine_operator_context_penalty (candidate_code query_text : String) : Q :=
  if !(_MACHINE_OPERATOR_PENALTY_CODES.contains candidate_code) then 1.0
  else
    let qToks := setOfList (_tokens query_text)
    if candidate_code = "81531" && !(sDisjoint qToks _TECHNICAL_KEYWORDS) then 0.05
    else if candidate_code = "72231" && !(sDisjoint qToks _TEXTILE_MACHINE_KEYWORDS) then 0.05
    else 1.0

/-- Python `int(...)` on a code string, `none` when the parse raises. -/
def pyIntOfString (s : String) : Option Nat :=
  if !s.isEmpty && s.data.all (fun c => 48 ≤ c.toNat && c.toNat ≤ 57) then
    some (s.data.foldl (fun n c => n * 10 + (c.toNat - 48)) 0)
  else none

/-- `_engineering_discipline_penalty`. -/
def _engineering_discipline_penalty (candidate_code query_text : String) : Q :=
  match pyIntOfString candidate_code with
  | none => 1.0
  | some codeNum =>
    if !(21400 ≤ codeNum ∧ codeNum ≤ 21600) then 1.0
    else
      let qToks := setOfList (_tokens query_text)
      let hasSoftware := !(sDisjoint qToks _SOFTWARE_SYSTEMS_KEYWORDS)
      let hasPhysical := !(sDisjoint qToks _PHYSICAL_SCIENCES_KEYWORDS)
      if hasSoftware && !hasPhysical &&
         (["21492", "21497", "21460", "21451", "21421"].contains candidate_code) then 0.10
      else if hasPhysical && !hasSoftware &&
         (["21526", "21522"].contains candidate_code) then 0.10
      else 1.0

/-- `_subordinate_context_penalty` (the pattern is compiled with `re.I`,
    modelled by lowercasing the searched raw text). -/
def _subordinate_context_penalty (candidate_code query_text : String) : Q :=
  if !(_DIRECTOR_LEVEL_CODES.contains candidate_code) then 1.0
  else if psearch _SUBORDINATE_PHRASE_RX (String.mk (query_text.data.map pyToLower)) then 0.15
  else 1.0

/-- `_mfg_cues_for_penalty`. -/
def _mfg_cues_for_penalty (qNorm : String) : Bool :=
  ["manufactur", "production", "factory", "plant", "line"].any (fun c => pyIn c qNorm)

/-- `_fnb_cues_for_penalty`. -/
def _fnb_cues_for_penalty (qNorm : String) : Bool :=
  ["restaurant", "f&b", "food", "beverage", "kitchen", "cafe"].any (fun c => pyIn c qNorm)

/-- `_specific_manager_penalty` (the `"13211"` check is kept although that
    code is not among the dict keys, as in the source). -/
def _specific_manager_penalty (candidate_code query_text : String) : Q :=
  if !(_SPECIFIC_INDUSTRY_MANAGER_CODES.contains candidate_code) then 1.0
  else
    let qNorm := _normalize query_text
    if candidate_code = "13211" && !(_mfg_cues_for_penalty qNorm) then 0.10
    else if candidate_code = "14121" && !(_fnb_cues_for_penalty qNorm) then 0.10
    else if candidate_code = "14201" && !(psearch _HOSPITALITY_CUES qNorm) then 0.10
    else if candidate_code = "14310" && !(psearch _SPORTS_CUES qNorm) then 0.10
    else if (["14323", "14329", "14324"].contains candidate_code) &&
            !(psearch _HOSPITALITY_CUES qNorm || psearch _SPORTS_CUES qNorm ||
              psearch _WELLNESS_CUES qNorm) then 0.10
    else 1.0

/-- The overlap fraction used by `_get_industry_multiplier`: intersection of
    company and candidate sector cues over the candidate cue count (0 when
    the candidate has no cues). -/
def industryOverlapFrac (company_industry_description : String) (candidate_rec : TaxRec) : Q :=
  let companyCues := _sector_cues_from_text company_industry_description
  let candidateCues := recSectorCues candidate_rec
  if candidateCues.length = 0 then 0
  else ((sInter companyCues candidateCues).length : Q) / (candidateCues.length : Q)

/-- `_get_industry_multiplier`: graduated industry-context multiplier. -/
def _get_industry_multiplier (company_industry_description : String) (candidate_rec : TaxRec) : Q :=
  if company_industry_description.isEmpty then 1.0
  else
    let companyCues := _sector_cues_from_text company_industry_description
    let candidateCues := recSectorCues candidate_rec
    if companyCues.isEmpty || candidateCues.isEmpty then 1.0
    else
      let overlapFrac := ((sInter companyCues candidateCues).length : Q) / (candidateCues.length : Q)
      if 0.75 < overlapFrac then 1.40
      else if 0.40 < overlapFrac then 1.20
      else 1.0

/-- `_seniority_penalty`. -/
def _seniority_penalty (candidate_title query_text candidate_blob : String) : Q :=
  let cToks := sUnion (setOfList (_tokens candidate_title)) (setOfList (_tokens candidate_blob))
  if (sInter cToks _SUPERVISORY_TOKENS).isEmpty then 1.0
  else if !(sInter (setOfList (_tokens query_text)) _SUPERVISE_CUES_IN_QUERY).isEmpty then 1.0
  else
    let qSecs := _sector_cues_from_text query_text
    let cSecs := _sector_cues_from_text (candidate_title ++ " " ++ candidate_blob)
    if !(sInter qSecs cSecs).isEmpty then 0.90 else 0.65

/-- `_title_seniority_conflict_penalty`. -/
def _title_seniority_conflict_penalty (input_title_text input_duties_text candidate_text : String) : Q :=
  let candToks := setOfList (_tokens candidate_text)
  if (sInter candToks _SUPERVISORY_TOKENS).isEmpty then 1.0
  else
    let titleToks := setOfList (_tokens input_title_text)
    let dutiesToks := setOfList (_tokens input_duties_text)
    let isTitleJunior :=
      (sInter titleToks _SUPERVISORY_TOKENS).isEmpty ||
      !(sInter titleToks _JUNIOR_TITLE_CUES).isEmpty
    let areDutiesSenior := !(sInter dutiesToks _SUPERVISE_CUES_IN_QUERY).isEmpty
    if isTitleJunior && areDutiesSenior then 0.40 else 1.0

/-- `_get_cluster_boost`. -/
def _get_cluster_boost (query_text candidate_text : String) : Q :=
  let qToks := setOfList (_tokens query_text)
  let cToks := setOfList (_tokens candidate_text)
  if ROLE_CLUSTERS.any (fun cl =>
       !(sInter qToks cl.2).isEmpty && !(sInter cToks cl.2).isEmpty) then 1.35
  else 1.0

/-- `_cross_domain_penalty`. -/
def _cross_domain_penalty (query_text candidate_blob : String) : Q :=
  let qt := _sector_cues_from_text query_text
  let ct := _sector_cues_from_text candidate_blob
  if ct.isEmpty then 1.0
  else
    let missing := sDiff ct qt
    let m1 : Q := if 1 ≤ ct.length ∧ missing.length = ct.length then 0.85 else 1
    let m2 : Q := if 1 ≤ missing.length ∧ 2 ≤ ct.length then 0.90 else 1
    let m3 : Q :=
      if (qt.contains "retail" || qt.contains "logistics") &&
         (ct.contains "engineering" || ct.contains "ict") then 0.60 else 1
    let m4 : Q :=
      if ct.contains "managers" &&
         !(qt.contains "managers" || qt.contains "education" || qt.contains "finance" ||
           qt.contains "engineering") then 0.92 else 1
    m1 * m2 * m3 * m4

/-- Lookup into `_GUARDED_SECTORS`. -/
def gsec (k : String) : Q :=
  (((_GUARDED_SECTORS.find? (fun p => p.1 = k)).map (fun p => p.2)).getD 1)

/-- `_sector_guard_penalty`. -/
def _sector_guard_penalty (query_text candidate_text : String) : Q :=
  let q := _normalize query_text
  let c := _normalize candidate_text
  let qSecs := _sector_cues_from_text q
  let cSecs := _sector_cues_from_text c
  let g1 : Q := if cSecs.contains "healthcare" && !(qSecs.contains "healthcare") then gsec "healthcare" else 1
  let g2 : Q := if cSecs.contains "education" && !(qSecs.contains "education") then gsec "education" else 1
  let g3 : Q := if cSecs.contains "hospitality" && !(qSecs.contains "hospitality") then gsec "hospitality" else 1
  let g4 : Q := if cSecs.contains "security" && !(qSecs.contains "security") then gsec "security" else 1
  let g5 : Q := if cSecs.contains "arts_media" && !(qSecs.contains "arts_media") then gsec "arts_media" else 1
  let g6 : Q := if cSecs.contains "travel" && !(qSecs.contains "travel") then gsec "travel" else 1
  let g7 : Q :=
    if (pyIn "casino" c || pyIn "gaming" c) && !(psearch _GAMING_CUES q) then 0.05 else 1
  let g8 : Q :=
    if (pyIn "sports" c || pyIn "sport " c || pyIn "sports centre" c) &&
       !(psearch _SPORTS_CUES q) then 0.10 else 1
  let g9 : Q :=
    if (pyIn "marketing" c || pyIn "brand" c || pyIn "advertis" c) &&
       !(psearch _MARKETING_CUES q) then 0.15 else 1
  g1 * g2 * g3 * g4 * g5 * g6 * g7 * g8 * g9

/-- `_title_duty_coherence_penalty`. -/
def _title_duty_coherence_penalty (title_text duties_text : String)
    (candidate_uses_title_more : Bool) : Q :=
  let tt := setOfList (_tokens title_text)
  let dt := setOfList (_tokens duties_text)
  if tt.isEmpty || dt.isEmpty then 1.0
  else
    let inter : Q := ((sInter tt dt).length : Q) / (min tt.length dt.length : Q)
    if candidate_uses_title_more && inter < 0.08 then 0.78 else 1.0

/-- `_role_anchor_boost`. -/
def _role_anchor_boost (query_text candidate_title_and_blob : String) : Q :=
  let overlap := _role_anchor_overlap query_text candidate_title_and_blob
  let qTokens := setOfList (_tokens query_text)
  let adminHint :=
    (["admin", "administrative", "executive", "clerk", "coordinator"] : List String).any
      (fun w => qTokens.contains w)
  if 3 ≤ overlap then 1.10
  else if overlap = 2 then 1.08
  else if overlap = 1 then 1.05
  else if adminHint then 1.03
  else 1.00

/-- `_title_sector_conflict_penalty`. -/
def _title_sector_conflict_penalty (title_text rec_blob : String) : Q :=
  let ts := _sector_cues_from_text title_text
  let cs := _sector_cues_from_text rec_blob
  if ts.isEmpty || cs.isEmpty then 1.0
  else if (sInter ts cs).isEmpty then
    let heavyTitle : List String := ["arch_design", "ict", "engineering", "managers"]
    let sensitiveRec : List String := ["fnb", "hospitality", "arts_media"]
    if !(sInter ts heavyTitle).isEmpty && !(sInter cs sensitiveRec).isEmpty then 0.45
    else 0.70
  else 1.0

/-- `_title_duty_coherence_conflict_penalty` (the third argument of the
    source is unused by its body). -/
def _title_duty_coherence_conflict_penalty (title_text duties_text _rec_blob : String) : Q :=
  let tt := setOfList (_tokens title_text)
  let dt := setOfList (_tokens duties_text)
  if tt.isEmpty || dt.isEmpty then 1.0
  else
    let inter : Q := ((sInter tt dt).length : Q) / (min tt.length dt.length : Q)
    if inter < 0.06 then 0.85 else 1.0

/-- `_candidate_context_multiplier`: the catalogue of narrow code-specific
    corrections, applied as one running product. -/
def _candidate_context_multiplier (rec_code title duties : String) : Q :=
  let q := _normalize (title ++ " " ++ duties)
  let qToks := setOfList (_tokens q)
  let m1 : Q :=
    if !(sDisjoint qToks (sDiff HIGH_VALUE_KEYWORDS ["sewing", "textile"])) &&
       rec_code = "81531" then 0.05 else 1
  let m2 : Q :=
    if !(sDisjoint qToks _TEXTILE_MACHINE_KEYWORDS) && rec_code = "72231" then 0.05 else 1
  let m3 : Q :=
    if (pyIn "client" q || pyIn "represent" q) && rec_code = "26111" then 1.30 else 1
  let m4 : Q :=
    if (pyIn "client" q || pyIn "represent" q) && rec_code = "26121" then 0.20 else 1
  let m5 : Q :=
    if rec_code = "74110" && (psearch _ELECTRICIAN_CUES q || pyIn "electrician" q) then 1.25 else 1
  let m6 : Q :=
    if rec_code = "71322" && psearch _VEHICLE_CUES q then 1.12 else 1
  let m7 : Q :=
    if rec_code = "71322" && psearch _BUILDING_PAINT_CUES q && !(psearch _VEHICLE_CUES q) then 0.25 else 1
  let m8 : Q :=
    if rec_code = "71311" && psearch _BUILDING_PAINT_CUES q then 1.15 else 1
  let m9 : Q :=
    if rec_code = "71311" && psearch _VEHICLE_CUES q then 0.60 else 1
  let m10 : Q :=
    if rec_code = "93100" && (psearch _CONSTRUCTION_LABOUR_CUES q || pyIn "construction worker" q)
    then 1.25 else 1
  let m11 : Q :=
    if rec_code = "71331" && psearch _CONSTRUCTION_LABOUR_CUES q && !(pyIn "maintenance" q)
    then 0.45 else 1
  let m12 : Q :=
    if (["31184", "31183", "31182", "31181"].contains rec_code) && psearch _DRAFTER_CUES q
    then 1.20 else 1
  let mdKey := (["managing director", "chief operating officer", " coo "] : List String).any
      (fun k => pyIn k q)
  let m13 : Q := if mdKey && (["11201", "11203"].contains rec_code) then 1.18 else 1
  let m14 : Q :=
    if mdKey && pmatchStart (Pat.seqs [Pat.str "265", Pat.dig, Pat.dig]) rec_code &&
       !(psearch _ARTS_MEDIA_CUES q) then 0.20 else 1
  let m15 : Q :=
    if mdKey && rec_code = "14321" && !(psearch _GAMING_CUES q) then 0.25 else 1
  let m16 : Q :=
    if pyIn "operations manager" q && rec_code = "13299" &&
       !(psearch _GAMING_CUES q || psearch _HOSPITALITY_CUES q || psearch _ARTS_MEDIA_CUES q)
    then 1.12 else 1
  let m17 : Q :=
    if pyIn "office manager" q && rec_code = "12112" &&
       (psearch _ADMIN_MANAGER_CUES q || pyIn "oversee" q || pyIn "manage" q) then 1.18 else 1
  let m18 : Q :=
    if pyIn "office manager" q && rec_code = "41101" then 0.60 else 1
  let m19 : Q :=
    if pyIn "mechanical technician" q && rec_code = "31151" then 1.15 else 1
  let m20 : Q :=
    if pyIn "mechanical technician" q && rec_code = "72310" && !(psearch _VEHICLE_CUES q)
    then 0.50 else 1
  let skKey := pyIn "storekeeper" q || pyIn "store keeper" q || pyIn "storeman" q
  let m21 : Q := if skKey && (["43212", "43211"].contains rec_code) then 1.25 else 1
  let m22 : Q :=
    if skKey && (pyStartsWith rec_code "31" || pyStartsWith rec_code "21") then 0.55 else 1
  let wsKey := pyIn "workshop supervisor" q || (pyIn "workshop" q && pyIn "supervisor" q)
  let m23 : Q := if wsKey && rec_code = "72000" then 1.15 else 1
  let m24 : Q :=
    if wsKey && pmatchStart (Pat.seqs [Pat.str "5150", Pat.chars "12345"]) rec_code
    then 0.25 else 1
  let m25 : Q :=
    if pyIn "project officer" q && rec_code = "24213" &&
       !(psearch _ATTRACTIONS_CUES q || pyIn "park" q) then 1.15 else 1
  let m26 : Q :=
    if pyIn "project officer" q && rec_code = "31603" &&
       !(psearch _ATTRACTIONS_CUES q || pyIn "park" q) then 0.40 else 1
  let engDraw := pyIn "engineer" q &&
    (psearch _CONSTRUCTION_LABOUR_CUES q || psearch _DRAFTER_CUES q ||
     pyIn "civil" q || pyIn "structural" q)
  let m27 : Q := if engDraw && (["21421", "21422"].contains rec_code) then 1.20 else 1
  let m28 : Q := if engDraw && rec_code = "21497" then 0.30 else 1
  let m29 : Q := if pyIn "project manager" q && rec_code = "13299" then 1.15 else 1
  let m30 : Q :=
    if pyIn "project manager" q && rec_code = "14310" && !(psearch _SPORTS_CUES q)
    then 0.20 else 1
  let m31 : Q :=
    if pyIn "manager" q && psearch _CONSTRUCTION_LABOUR_CUES q && rec_code = "13299"
    then 1.12 else 1
  let supKey := pyIn "site supervisor" q ||
    (pyIn "supervisor" q && psearch _CONSTRUCTION_LABOUR_CUES q)
  let m32 : Q := if supKey && rec_code = "83000" then 1.20 else 1
  let m33 : Q :=
    if supKey && !(pyIn "casino" q || pyIn "gaming" q) &&
       pmatchStart (Pat.seqs [Pat.bnd, Pat.str "51702", Pat.bnd]) rec_code then 0.10 else 1
  let m34 : Q :=
    if rec_code = "51702" && !(psearch _GAMING_CUES q || pyIn "casino" q) then 0.05 else 1
  let m35 : Q :=
    if rec_code = "14310" && !(psearch _SPORTS_CUES q) then 0.10 else 1
  m1 * m2 * m3 * m4 * m5 * m6 * m7 * m8 * m9 * m10 * m11 * m12 * m13 * m14 * m15 * m16 *
  m17 * m18 * m19 * m20 * m21 * m22 * m23 * m24 * m25 * m26 * m27 * m28 * m29 * m30 *
  m31 * m32 * m33 * m34 * m35

/-- `_OCC_GROUP_ALIASES`, in dict insertion order. -/
def _OCC_GROUP_ALIASES : List (String × String) :=
  [("legislators", "1"), ("senior officials", "1"), ("managers", "1"),
   ("professionals", "2"),
   ("associate professionals", "3"), ("technicians", "3"),
   ("clerical", "4"), ("clerical support workers", "4"),
   ("service", "5"), ("sales", "5"), ("service and sales", "5"),
   ("agricultural", "6"), ("agriculture", "6"), ("fishery", "6"),
   ("craftsmen", "7"), ("related trades", "7"), ("craft", "7"),
   ("plant", "8"), ("machine operators", "8"), ("assemblers", "8"),
   ("cleaners", "9"), ("labourers", "9"), ("laborers", "9"), ("related workers", "9"),
   ("armed forces", "X"), ("foreign diplomatic", "X"), ("diplomatic", "X"), ("personnel", "X")]

/-- Leading-digits match of `re.match(r"^(\d{1,2})\b", t)`: the matched digit
    group, when one or two leading digits are followed by a boundary. -/
def leadingDigits12 (t : String) : Option String :=
  let ds := t.data.takeWhile (fun c => 48 ≤ c.toNat && c.toNat ≤ 57)
  if ds.isEmpty then none
  else if ds.length ≤ 2 && !(isWordHead (t.data.drop ds.length)) then
    some (String.mk ds)
  else none

/-- `_parse_occ_group_hint`. -/
def _parse_occ_group_hint (s : String) : Option String :=
  if s.isEmpty then none
  else
    let t := _normalize s
    if t.isEmpty then none
    else
      match leadingDigits12 t with
      | some n =>
        if (["1","2","3","4","5","6","7","8","9"] : List String).contains n then some n
        else if n = "10" then some "X"
        else ((_OCC_GROUP_ALIASES.find? (fun kv => pyIn kv.1 t)).map (fun kv => kv.2))
      | none =>
        ((_OCC_GROUP_ALIASES.find? (fun kv => pyIn kv.1 t)).map (fun kv => kv.2))

/-- `_group_hint_multiplier`. -/
def _group_hint_multiplier (cand_code : String) (group_hint : Option String) : Q :=
  match group_hint with
  | none => 1.0
  | some h =>
    if h = "X" then 1.0
    else
      match cand_code.data with
      | [] => 1.0
      | c :: _ =>
        if !(48 ≤ c.toNat && c.toNat ≤ 57) then 1.0
        else if String.mk [c] = h then 1.12
        else 0.55

/-- `_score_vs_record_precomputed`: the full weighted score of a candidate
    record for a query, returning the score and the action-verb hit count.
    The explain string of the source (a printf rendering of the factors
    below, not consumed by any control flow) is not modelled. -/
def _score_vs_record_precomputed
    (q_title q_duties q_norm : String) (q_toks q_bis : List String)
    (rec : TaxRec) (_edu_text_for_row : String)
    (group_hint : Option String) (company_industry : String) : Q × Nat :=
  let t := rec.title
  let b := rec.search_text
  let title_score := _score_title_similarity q_title rec
  let b_norm := recBlobNorm rec
  let btoks := recBlobTokens rec
  let bbis := recBlobBigrams rec
  let s_diff_blob := _diff_ratio_normed q_norm b_norm
  let ovl := _overlap_measure_sets q_toks btoks
  let s_set_blob := ovl.1
  let s_jac_blob := ovl.2.1
  let acts_blob := ovl.2.2
  let s_bi_blob := _bigram_overlap_sets q_bis bbis
  let base_blob0 : Q :=
    0.15 * s_diff_blob + 0.40 * s_set_blob + 0.20 * s_jac_blob + 0.25 * s_bi_blob
  let base_blob : Q :=
    if 0 < acts_blob then base_blob0 * (1.0 + min 0.45 (0.20 * (acts_blob : Q)))
    else base_blob0
  let base0 : Q := title_score * 0.40 + base_blob * 0.60
  let base1 : Q :=
    if (_tokens q_title).contains "manager" then
      base0 * 0.5 + (_score_manager_context (q_title ++ " " ++ q_duties) (t ++ " " ++ b)) * 0.5
    else base0
  let base : Q :=
    if (_tokens (q_title ++ " " ++ q_duties)).contains "engineer" then
      base1 * 0.5 + (_score_engineer_context (q_title ++ " " ++ q_duties) (t ++ " " ++ b)) * 0.5
    else base1
  let mult_sen := _seniority_penalty t (q_title ++ " " ++ q_duties) b
  let mult_dom := _cross_domain_penalty (q_title ++ " " ++ q_duties) b
  let mult_guard := _sector_guard_penalty (q_title ++ " " ++ q_duties) (t ++ " " ++ b)
  let mult_coh := _title_duty_coherence_penalty q_title q_duties
    (decide (base_blob * 1.06 < title_score))
  let mult_role := _role_anchor_boost (q_title ++ " " ++ q_duties) (t ++ " " ++ b)
  let ctx_mult := _candidate_context_multiplier rec.code q_title q_duties
  let ts_conf := _title_sector_conflict_penalty q_title b
  let td_conf := _title_duty_coherence_conflict_penalty q_title q_duties b
  let grp_mult := _group_hint_multiplier rec.code group_hint
  let industry_mult := _get_industry_multiplier company_industry rec
  let mult_title_seniority := _title_seniority_conflict_penalty q_title q_duties (t ++ " " ++ b)
  let cluster_boost := _get_cluster_boost (q_title ++ " " ++ q_duties) (t ++ " " ++ b)
  let sub_penalty := _subordinate_context_penalty rec.code (q_title ++ " " ++ q_duties)
  let machine_op_penalty := _machine_operator_context_penalty rec.code (q_title ++ " " ++ q_duties)
  let discipline_penalty := _engineering_discipline_penalty rec.code (q_title ++ " " ++ q_duties)
  let spec_man_penalty := _specific_manager_penalty rec.code (q_title ++ " " ++ q_duties)
  let corp_mgr_penalty := _corporate_manager_penalty rec.code (q_title ++ " " ++ q_duties) q_title
  let drafter_handler := _drafter_discipline_handler rec.code (q_title ++ " " ++ q_duties)
  let design_penalty := _design_discipline_penalty rec.code (q_title ++ " " ++ q_duties)
  let safety_handler := _safety_discipline_handler rec.code (q_title ++ " " ++ q_duties)
  let machinist_penalty := _machinist_drafter_penalty rec.code (q_title ++ " " ++ q_duties)
  let marine_penalty := _marine_context_penalty rec (q_title ++ " " ++ q_duties)
  let score := base * mult_sen * mult_dom * mult_guard * mult_coh * mult_role * ctx_mult *
    ts_conf * td_conf * grp_mult * industry_mult * mult_title_seniority * cluster_boost *
    sub_penalty * machine_op_penalty * discipline_penalty * spec_man_penalty *
    corp_mgr_penalty * drafter_handler * design_penalty * safety_handler *
    machinist_penalty * marine_penalty
  (score, acts_blob)

-- ===================== X-codes =====================

/-- `X_TITLE_MAP`. -/
def X_TITLE_MAP : List (String × String) :=
  [("X1000", "Worker reporting unidentifiable or inadequately described occupation"),
   ("X2000", "Worker not reporting any occupation"),
   ("X3000", "Singapore armed forces personnel"),
   ("X4000", "Foreign armed forces personnel"),
   ("X5000", "Foreign diplomatic personnel")]

/-- Lookup into `X_TITLE_MAP`. -/
def xTitle (code : String) : String :=
  (((X_TITLE_MAP.find? (fun p => p.1 = code)).map (fun p => p.2)).getD "")

/-- `_SG_ARMED_RX` (case-insensitive in the source; its input is normalized,
    hence lowercase). -/
def _SG_ARMED_RX : Pat :=
  Pat.wordAlts ["saf", "singapore armed forces", "singapore army", "rsn", "rsaf", "mindef"]

/-- `_FOR_ARMED_RX`. -/
def _FOR_ARMED_RX : Pat :=
  Pat.wordAlts ["foreign armed forces", "foreign military", "u.s.", "us army", "royal navy",
                "adf", "pla", "idf"]

/-- `_DIPLO_RX` (the apostrophe of the charge-d-affaires alternative is built
    from its character code). -/
def _DIPLO_RX : Pat :=
  Pat.seqs [Pat.bnd,
    Pat.alts [Pat.str "ambassador", Pat.str "high commissioner",
              Pat.seqs [Pat.str "attach", Pat.chars "eé"],
              Pat.str "consul", Pat.str "consular", Pat.str "diplomat", Pat.str "diplomatic",
              Pat.str "embassy",
              Pat.seqs [Pat.str "charg", Pat.chars "eé", Pat.wsP, Pat.str "d",
                        Pat.cls [Char.ofNat 39], Pat.str "affaires"],
              Pat.str "charge d affaires"],
    Pat.bnd]

/-- `_xcode_checker`: reserved-code detection from normalized title and duties. -/
def _xcode_checker (duties_text title_text : String) : Option (String × String) :=
  let d := _normalize duties_text
  let t := _normalize title_text
  let both := pyStrip (d ++ " " ++ t)
  if d.isEmpty && t.isEmpty then some ("X2000", xTitle "X2000")
  else
    let hits :=
      (if psearch _SG_ARMED_RX both then 2 else 0) +
      (if psearch _FOR_ARMED_RX both then 2 else 0) +
      (if psearch _DIPLO_RX both then 2 else 0)
    if 2 ≤ hits then
      if psearch _SG_ARMED_RX both then some ("X3000", xTitle "X3000")
      else if psearch _FOR_ARMED_RX both then some ("X4000", xTitle "X4000")
      else if psearch _DIPLO_RX both then some ("X5000", xTitle "X5000")
      else none
    else none

-- ===================== curated override (expert map) =====================

/-- An expert-map entry: normalized original title mapped to the curated
    SSOC code and title (as built by `load_expert_map`). -/
structure ExpertEntry where
  normTitle : String
  ssocCode : String
  ssocTitle : String
deriving Repr, DecidableEq

/-- `_validate_expert_match`: expert-map lookup by normalized title with
    context validation for manager/engineer entries. -/
def _validate_expert_match (title_text duties_text : String)
    (expert_map : List ExpertEntry) (all_defs : List TaxRec) : Option (String × String) :=
  let normTitle := _normalize title_text
  match expert_map.find? (fun e => e.normTitle = normTitle) with
  | none => none
  | some e =>
    match all_defs.find? (fun rec => rec.code = e.ssocCode) with
    | none => some (e.ssocCode, e.ssocTitle)
    | some candidateRec =>
      let combined := title_text ++ " " ++ duties_text
      let contextScore : Q :=
        if pyIn "manager" normTitle then
          _score_manager_context combined candidateRec.search_text
        else if pyIn "engineer" normTitle then
          _score_engineer_context combined candidateRec.search_text
        else 0.0
      if 0.0 < contextScore ∨ (!(pyIn "manager" normTitle) && !(pyIn "engineer" normTitle)) then
        some (e.ssocCode, e.ssocTitle)
      else none

-- ===================== baked-in rule engine =====================

/-- Shorthand: literal string pattern. -/
def ps (s : String) : Pat := Pat.str s

/-- Shorthand: character class. -/
def pc (s : String) : Pat := Pat.chars s

/-- Shorthand: optional literal. -/
def po (s : String) : Pat := Pat.opt (Pat.str s)

/-- Shorthand: optional character class. -/
def pco (s : String) : Pat := Pat.opt (Pat.chars s)

/-- Shorthand: sequence. -/
def pq (l : List Pat) : Pat := Pat.seqs l

/-- Shorthand: alternation. -/
def pa (l : List Pat) : Pat := Pat.alts l

/-- Shorthand: one-or-more literal repetitions. -/
def pp (s : String) : Pat := Pat.pls (Pat.str s)

/-- Shorthand: word boundary. -/
def bb : Pat := Pat.bnd

-- recurring subpatterns of the rule list
/-- `man[ae]?gers?`. -/
def pManagers : Pat := pq [ps "man", pco "ae", ps "ger", po "s"]

/-- `as+is+t[ae]nts?`. -/
def pAssistants : Pat := pq [ps "a", pp "s", ps "i", pp "s", ps "t", pc "ae", ps "nt", po "s"]

/-- `exec(utive)?s?`. -/
def pExecs : Pat := pq [ps "exec", po "utive", po "s"]

/-- `of+icers?`. -/
def pOfficers : Pat := pq [ps "o", pp "f", ps "icer", po "s"]

/-- `of+ice`. -/
def pOffice : Pat := pq [ps "o", pp "f", ps "ice"]

/-- `driv[ae]?rs?`. -/
def pDrivers : Pat := pq [ps "driv", pco "ae", ps "r", po "s"]

/-- `cl[ei]rks?`. -/
def pClerks : Pat := pq [ps "cl", pc "ei", ps "rk", po "s"]

/-- `sup[eia]rvisors?`. -/
def pSupervisors : Pat := pq [ps "sup", pc "eia", ps "rvisor", po "s"]

/-- `work[ae]?rs?`. -/
def pWorkers : Pat := pq [ps "work", pco "ae", ps "r", po "s"]

/-- `eng?in[e]+rs?`. -/
def pEngineers : Pat := pq [ps "en", po "g", ps "in", Pat.pls (pc "e"), ps "r", po "s"]

/-- `techn?i?ci?ans?`. -/
def pTechnicians : Pat := pq [ps "tech", po "n", po "i", ps "c", po "i", ps "an", po "s"]

/-- `ac+ou?nt[ae]nts?`. -/
def pAccountants : Pat := pq [ps "a", pp "c", ps "o", po "u", ps "nt", pc "ae", ps "nt", po "s"]

/-- `ac+ou?nts?`. -/
def pAccounts : Pat := pq [ps "a", pp "c", ps "o", po "u", ps "nt", po "s"]

/-- `teach[ae]?rs?`. -/
def pTeachers : Pat := pq [ps "teach", pco "ae", ps "r", po "s"]

/-- `(admin|administ(r?)[ai]tive)`. -/
def pAdminAdj : Pat := pa [ps "admin", pq [ps "administ", po "r", pc "ai", ps "tive"]]

/-- `(administ(r?)[ai]tive|admin)` (reversed order variant). -/
def pAdminAdjRev : Pat := pa [pq [ps "administ", po "r", pc "ai", ps "tive"], ps "admin"]

/-- `(hr|human\s+resou?rce)`. -/
def pHr : Pat := pa [ps "hr", pq [ps "human", Pat.wsP, ps "reso", po "u", ps "rce"]]

/-- `(hr|human\s+resou?rce|human\s+capital)`. -/
def pHrCap : Pat :=
  pa [ps "hr", pq [ps "human", Pat.wsP, ps "reso", po "u", ps "rce"],
      pq [ps "human", Pat.wsP, ps "capital"]]

/-- `sup+o?rts?`. -/
def pSupport : Pat := pq [ps "su", pp "p", po "o", ps "rt", po "s"]

/-- `chi[ei]f`. -/
def pChief : Pat := pq [ps "chi", pc "ei", ps "f"]

/-- `pro?j[e]?ct`. -/
def pProject : Pat := pq [ps "pr", po "o", ps "j", po "e", ps "ct"]

/-- `lan?gu[ae]ge`. -/
def pLanguage : Pat := pq [ps "la", po "n", ps "gu", pc "ae", ps "ge"]

/-- `(teach[ae]?rs?|tutors?)`. -/
def pTeachTutor : Pat := pa [pTeachers, pq [ps "tutor", po "s"]]

/-- A rule of `_BAKED_RULES`: primary pattern, target code and title, id,
    optional required-context pattern, title-only flag. -/
structure BakedRule where
  rx : Pat
  code : String
  occTitle : String
  reason : String
  cue : Option Pat
  titleOnly : Bool

/-- `_BAKED_RULES`, in declaration order (first half: cleaning through
    construction trades). -/
def _BAKED_RULES_A : List BakedRule :=
  [⟨Pat.alt (pq [Pat.bos, Pat.wsS, ps "cl", pco "ea", pco "ae", ps "n", pco "ae", ps "r", po "s", Pat.eos])
            (pq [ps "o", pp "f", ps "ice", Pat.wsP, ps "cl", pc "ea", pc "ea", ps "ner"]),
    "91131", "Office/Commercial/Industrial establishment indoor cleaner", "rule_cleaner_exact", none, true⟩,
   ⟨pq [bb, ps "housek", Pat.pls (pc "e"), ps "p", pco "ae", ps "r", po "s", bb],
    "51501", "Housekeeper (Private households, hotels and offices)", "rule_housekeeper", none, true⟩,
   ⟨pq [bb, ps "janitor", po "s", bb], "91299", "Other cleaning worker n.e.c.", "rule_janitor", none, true⟩,
   ⟨pq [bb, ps "general", Pat.wsP, ps "cle", po "a", ps "n", pco "ae", ps "r", po "s", bb],
    "91131", "Office/Commercial/Industrial establishment indoor cleaner", "rule_general_cleaner", none, true⟩,
   ⟨pq [bb, pHrCap, Pat.wsP,
        pa [pq [ps "director", po "s"], pq [ps "head", po "s"], pManagers], bb],
    "12121", "Human resource manager", "rule_hr_manager", none, true⟩,
   ⟨pq [bb, pa [pq [ps "recru", pc "ia", ps "ter", po "s"], pq [ps "recru", pc "ia", ps "tment"],
                pq [ps "talent", Pat.wsP, ps "acquisition"]], bb],
    "24231", "Recruiter/Talent acquisition specialist", "rule_recruiter", none, true⟩,
   ⟨pq [bb, ps "payroll", Pat.wsP,
        pa [pq [ps "specialist", po "s"], pOfficers, pExecs], bb],
    "41102", "Payroll officer", "rule_payroll_officer", none, true⟩,
   ⟨pq [bb, ps "payroll", Pat.wsP, pClerks, bb],
    "41102", "Payroll clerk", "rule_payroll_clerk", none, true⟩,
   ⟨pq [bb, pHr, Pat.wsP,
        pa [pq [ps "generalist", po "s"],
            pq [ps "business", Pat.wsP, ps "partn", pco "ae", ps "r", po "s"], ps "bp"], bb],
    "41102", "Human resource Clerk", "rule_hr_generalist_bp", none, true⟩,
   ⟨pq [bb, pHrCap, Pat.wsP,
        pa [pAssistants, pExecs, pq [ps "c", po "o", ps "ordinator", po "s"]], bb],
    "12121", "Human resource manager", "rule_hr_assistant_exec", none, true⟩,
   ⟨pq [Pat.bos, Pat.wsS, pHr, Pat.wsS, Pat.eos],
    "41102", "Human resource Clerk", "rule_hr_exact", none, true⟩,
   ⟨pq [bb, pa [ps "chinese", ps "mandarin", ps "english", ps "malay", ps "tamil", ps "japanese",
                ps "korean", ps "french", ps "german", ps "spanish"], Pat.wsP,
        pa [pTeachers, pq [ps "tutor", po "s"], pq [ps "instructor", po "s"]], bb],
    "36201", "Language instructor (extracurriculum)", "rule_specific_language_teacher", none, true⟩,
   ⟨Pat.alt (pq [bb, pTeachTutor, bb, Pat.star Pat.anyc, bb, pLanguage, bb])
            (pq [bb, pLanguage, bb, Pat.star Pat.anyc, bb, pTeachTutor, bb]),
    "36201", "Language instructor (extracurriculum)", "rule_language_teacher", none, true⟩,
   ⟨pq [bb, pa [pq [ps "ret", po "a", ps "il"], pq [ps "shop", po "s"],
                pq [ps "st", po "o", ps "re", po "s"]], Pat.wsP, pManagers, bb],
    "14201", "Retail/Shop manager", "rule_retail_manager", none, true⟩,
   ⟨pq [bb, ps "cash", pc "i", pc "e", ps "r", po "s", bb],
    "52302", "Cashier (general)", "rule_cashier", none, true⟩,
   ⟨pq [bb, pa [pq [ps "sale", po "s", Pat.wsS,
                    pa [pq [ps "p", pc "ae", ps "rson", po "s"], pClerks, pAssistants,
                        ps "executive", ps "exec"]],
                pq [ps "retail", Pat.wsP, ps "sale", po "s"],
                pq [ps "shop", po "s", Pat.wsP, pAssistants]], bb],
    "52202", "Shop sales assistant", "rule_sales_person_clerk_asst", none, true⟩,
   ⟨pq [bb, pa [pq [ps "sale", po "s", Pat.wsP, pSupervisors],
                pq [ps "fl", po "o", po "o", ps "r", Pat.wsP, pManagers]], bb],
    "52201", "Sales supervisor", "rule_retail_sales_sup", none, true⟩,
   ⟨pq [bb, pa [pq [ps "custom", pco "ae", ps "r", po "s", Pat.wsS,
                    pa [pq [ps "s", pc "eia", ps "rvice", po "s"], pSupport]],
                pq [ps "client", Pat.wsP, ps "relations"]], bb],
    "42245", "Customer service representative", "rule_customer_service_support", none, true⟩,
   ⟨pq [bb, ps "flyer", bb], "96291", "Leaflet/Newspaper distributor/deliverer", "rule_flyer_distributor", none, true⟩,
   ⟨pq [bb, ps "merchand", po "i", pc "sz", ps "er", bb],
    "33225", "Merchandising/Category executive", "rule_mercahndiser", none, true⟩,
   ⟨pq [bb, pa [pq [ps "tailor", po "s"],
                pq [ps "dre", pp "s", ps "mak", pco "ae", ps "r", po "s"]], bb],
    "75310", "Tailor/Dressmaker", "rule_tailor_dressmaker", none, true⟩,
   ⟨pq [bb, pa [pq [ps "store", po "s", Pat.wsS, ps "k", Pat.pls (pc "e"), ps "p", pco "ae", ps "r"],
                pq [ps "st", po "o", ps "re", Pat.wsS, ps "man"],
                pq [ps "st", po "o", ps "re", Pat.wsS, ps "men"]], bb],
    "43212", "Storekeeper", "rule_storekeeper", none, true⟩,
   ⟨pq [bb, ps "warehouse", Pat.wsP,
        pa [pAssistants, pq [ps "op", pco "ae", ps "rator", po "s"],
            pq [ps "pick", pco "ae", ps "r", po "s"], pq [ps "pack", pco "ae", ps "r", po "s"]], bb],
    "93201", "Hand packer", "rule_warehouse_asst", none, true⟩,
   ⟨pq [bb, ps "logistic", po "s", Pat.wsP, ps "c", po "o", ps "ordinator", po "s", bb],
    "33461", "Logistics/Production planner", "rule_logistics_coord", none, true⟩,
   ⟨pq [bb, ps "pack", pco "ae", ps "r", po "s", bb],
    "93201", "Hand packer", "rule_packer", none, true⟩,
   ⟨pq [bb, ps "general", Pat.wsP, pWorkers, bb],
    "96293", "Odd job person", "rule_general_worker", none, true⟩,
   ⟨pq [bb, ps "fork", Pat.wsS, ps "lift", po "s", bb],
    "83441", "Fork lift truck operator", "rule_forklift", none, false⟩,
   ⟨pq [bb, pa [ps "bus", ps "coach"], Pat.wsP, pDrivers, bb],
    "83311", "Bus driver", "rule_bus_driver", none, true⟩,
   ⟨pq [bb, pa [pq [ps "lo", pp "r", ps "y"], ps "truck"], Pat.wsS, pDrivers, bb],
    "83321", "Lorry/Truck driver", "rule_lorry_truck_driver", none, true⟩,
   ⟨pq [bb, ps "deliv", pco "ae", ps "ry", Pat.wsS, pDrivers, bb],
    "83229", "Car/Taxi/Van/Light goods vehicle driver n.e.c.", "rule_delivery_driver", none, true⟩,
   ⟨pq [Pat.bos, Pat.wsS, pDrivers, Pat.wsS, Pat.eos],
    "8322", "Car/Taxi/Van/Light goods vehicle driver", "rule_driver_exact", none, true⟩,
   ⟨pq [bb, ps "con", po "s", ps "t", po "r", ps "uct", po "i", ps "on", Pat.wsP, pWorkers, bb],
    "93100", "Civil engineering/Building construction labourer", "rule_construction_worker", none, true⟩,
   ⟨pq [ps "site", Pat.wsP, ps "c", po "o", ps "ordinator", po "s"],
    "31124", "Resident technical officer", "rule_site_coord",
    some (pq [bb, pa [pq [ps "work", Pat.wsS, ps "site"], pq [ps "constru", pc "ck", ps "tion"],
                      ps "building", ps "engineering"], bb]), true⟩,
   ⟨pq [ps "site", Pat.wsP, pSupervisors],
    "71000", "Supervisor/General foreman (building and related trades)", "rule_site_supervisor", none, true⟩,
   ⟨pq [bb, pa [pq [pSupervisors, Pat.wsS, ps "cum", Pat.wsS, ps "general", Pat.wsS,
                    ps "f", po "o", ps "rem", pc "ae", ps "n"],
                pq [ps "f", po "o", ps "rem", pc "ae", ps "n"]], bb],
    "71000", "Supervisor/General foreman (building and related trades)", "rule_foreman", none, true⟩,
   ⟨pq [bb, ps "saf", pco "ae", ps "ty", Pat.wsP, pa [pOfficers, pSupervisors], bb],
    "21493", "Industrial safety engineer", "rule_safety", none, true⟩,
   ⟨pq [bb, ps "qua", po "n", ps "tity", Pat.wsS, ps "s", pc "ue", ps "rv", pc "ae", ps "yor", po "s", bb],
    "21494", "Quantity surveyor", "rule_qs", none, true⟩,
   ⟨pq [bb, ps "exc", pc "ae", ps "v", pc "ae", ps "t", po "o", ps "r", po "s", Pat.wsP,
        ps "op", pco "ae", ps "ra", po "t", ps "or", po "s", bb],
    "83421", "Excavating/Trench digging machine operator", "rule_excavator_operator", none, true⟩,
   ⟨pq [bb, ps "pump", po "s", Pat.wsP, ps "op", pco "ae", ps "ra", po "t", ps "or", po "s", bb],
    "31153", "Machining/Tooling technician", "rule_pump_operator",
    some (pq [bb, pa [ps "plant", ps "machine", ps "industrial", ps "construction", ps "site",
                      ps "water", ps "chemical"], bb]), false⟩,
   ⟨pa [ps "quality", ps "qa", ps "qc"],
    "21414", "Quality control/assurance engineer", "rule_QA_engineer", none, true⟩,
   ⟨pq [bb, ps "safety", bb], "21493", "Industrial safety engineer", "rule_safety_engineer", none, true⟩,
   ⟨pq [bb, ps "carp", pc "ae", ps "nt", pco "ae", ps "r", po "s", bb],
    "71151", "Carpenter", "rule_carpenter", none, true⟩,
   ⟨pq [bb, ps "plumb", pco "ae", ps "r", po "s", bb], "71261", "Plumber", "rule_plumber", none, true⟩,
   ⟨pq [bb, ps "plast", pco "ae", ps "r", pco "ae", ps "r", po "s", bb],
    "71230", "Plasterer", "rule_plasterer", none, true⟩,
   ⟨pq [bb, ps "til", pco "ae", ps "r", po "s", bb], "71220", "Tiler", "rule_tiler", none, true⟩,
   ⟨pq [bb, ps "glaz", pc "ie", ps "r", po "s", bb], "71250", "Glazier", "rule_glazier", none, true⟩,
   ⟨pq [bb, ps "weld", pco "ae", ps "r", po "s", bb], "72120", "Welder", "rule_welder", none, true⟩,
   ⟨pq [bb, pa [pq [ps "sca", pp "f", ps "old", pco "ae", ps "r", po "s"],
                pq [ps "sca", pp "f", ps "old"]], bb],
    "71191", "Scaffolder", "rule_scaffolder", none, false⟩,
   ⟨pq [bb, Pat.bos, ps "architect", Pat.eos, bb],
    "21610", "Building architect", "rule_architect", none, true⟩,
   ⟨pq [bb, ps "lift", po "i", ps "ng", bb],
    "83431", "Crane/Hoist operator (excluding port)", "rule_lifting_crane_supervisor", none, true⟩]

/-- `_BAKED_RULES`, second half (generic engineers through admin/office). -/
def _BAKED_RULES_B : List BakedRule :=
  [⟨pq [bb, pa [ps "senior", ps "principal", ps "lead", pExecs], Pat.wsP, pEngineers, bb],
    "21499", "Engineering professional n.e.c.", "rule_senior_exec_engineer", none, true⟩,
   ⟨pq [bb, pa [pq [ps "sale", po "s", Pat.wsP, pEngineers],
                pq [ps "tech", po "n", po "i", po "c", ps "al", Pat.wsP, ps "sale", po "s"]], bb],
    "24331", "Technical sales professional", "rule_sales_engineer", none, true⟩,
   ⟨pq [bb, ps "mechanic", po "s", bb],
    "72310", "Automotive mechanic", "rule_vehicle_mechanic",
    some (pq [bb, pa [ps "auto", ps "car", ps "vehicle", ps "motor", ps "automotive",
                      ps "tyre", ps "battery"], bb]), false⟩,
   ⟨ps "cnc", "31153", "Machining/Tooling technician", "rule_cnc", none, true⟩,
   ⟨pq [bb, pa [ps "ui", ps "ux"], bb],
    "25124", "Interaction designer", "rule_UI|UX_designer", none, true⟩,
   ⟨pq [bb, ps "el", po "e", ps "ctr", pc "ia", ps "c", po "i", ps "an", po "s", bb],
    "74110", "Electrician", "rule_electrician", none, true⟩,
   ⟨pq [bb, ps "m", po "e", ps "ch", pc "ae", po "n", ps "i", po "c", ps "al", Pat.wsP, pTechnicians, bb],
    "31151", "Mechanical engineering technician", "rule_mech_tech", none, true⟩,
   ⟨pq [bb, ps "en", po "g", ps "in", Pat.pls (pc "e"), ps "ring", Pat.wsP, pTechnicians, bb],
    "31129", "Civil engineering technician n.e.c.", "rule_eng_tech", none, true⟩,
   ⟨pq [bb, pa [pq [ps "el", po "e", ps "ctr", pc "ia", po "c", ps "al", Pat.wsP, pEngineers],
                pq [ps "sw", po "i", ps "tchb", po "o", po "a", ps "rd", po "s"],
                pq [ps "p", po "o", ps "w", pco "ae", ps "r", Pat.wsP,
                    ps "s", pc "iy", ps "st", po "e", ps "m", po "s"]], bb],
    "21511", "Electrical engineer", "rule_elec_engineer", none, true⟩,
   ⟨pq [bb, pa [pq [ps "air", pco "-", ps "con"], pq [ps "air", Pat.wsS, ps "conditioning"]], bb],
    "71271", "Air-conditioning and refrigeration mechanic", "rule_aircon", none, false⟩,
   ⟨pq [bb, ps "m", po "e", ps "ch", pc "ae", po "n", ps "ic", po "a", po "l", Pat.wsP, pTechnicians, bb],
    "31151", "Mechanical engineering technician", "rule_mech_tech", none, true⟩,
   ⟨pq [Pat.bos, ps "tech", po "n", po "i", ps "c", po "i", ps "an", Pat.eos],
    "31151", "Mechanical engineering technician", "rule_mech_tech", none, true⟩,
   ⟨pq [bb, pa [pq [ps "doct", po "o", ps "r", po "s"], pq [ps "ph", pc "iy", ps "sician", po "s"]], bb],
    "22110", "General practitioner/Physician", "rule_doctor_gp", none, true⟩,
   ⟨pq [bb, ps "general", Pat.wsP, ps "practition", pco "ae", ps "r", po "s", bb],
    "22110", "General practitioner/Physician", "rule_doctor_gp", none, true⟩,
   ⟨pq [bb, pa [ps "registered", ps "staff"], Pat.wsP, ps "n", po "u", ps "rs", po "e", po "s", bb],
    "22200", "Nursing professional", "rule_registered_staff_nurse", none, true⟩,
   ⟨pq [bb, pa [ps "enrolled", ps "assistant"], Pat.wsP, ps "n", po "u", ps "rs", po "e", po "s", bb],
    "32200", "Enrolled/Assistant nurse", "rule_enrolled_nurse", none, true⟩,
   ⟨pq [bb, pa [pq [ps "nursing", Pat.wsP, ps "aide", po "s"],
                pq [ps "healthcare", Pat.wsP, pAssistants]], bb],
    "53201", "Healthcare assistant", "rule_nursing_aide", none, true⟩,
   ⟨Pat.alt (pq [Pat.bos, Pat.wsS, ps "nurs", po "e", po "s", Pat.wsS, Pat.eos])
            (pq [ps "clinic", Pat.wsP, ps "nurse"]),
    "22200", "Registered nurse and related nursing professional (excluding enrolled nurse)",
    "rule_nurse_exact", none, true⟩,
   ⟨pq [ps "clinic", Pat.wsP, pa [ps "manager", pq [ps "m", pp "a", ps "nger"], ps "mgr", ps "mgt"]],
    "13420", "Health services manager", "rule_clinic_manager", none, true⟩,
   ⟨pq [ps "clinic", Pat.wsP, pa [pq [ps "a", pp "s", ps "i", pp "s", ps "tant"],
                                  pq [ps "a", pp "s", ps "t"]]],
    "42243", "Medical/Dental receptionist", "rule_clinic_assistant", none, true⟩,
   ⟨pq [bb, pProject, Pat.wsP, pOfficers, bb],
    "24213", "Business/Financial project management professional", "rule_project_officer", none, true⟩,
   ⟨pq [bb, pProject, Pat.wsP, ps "c", po "o", ps "ordinator", po "s", bb],
    "13299", "Other production/operations manager n.e.c.", "rule_project_coord", none, true⟩,
   ⟨pq [bb, pProject, Pat.wsP, pManagers, bb],
    "13299", "Other production/operations manager n.e.c.", "rule_project_manager", none, true⟩,
   ⟨pq [bb, ps "op", po "e", ps "ra", po "t", ps "ion", po "s", Pat.wsP, pManagers, bb],
    "13299", "Other production/operations manager n.e.c.", "rule_ops_manager", none, true⟩,
   ⟨pq [bb, Pat.bos, pa [ps "manager", pq [ps "m", pp "a", ps "nger"]], Pat.eos, bb],
    "12112", "Administration manager", "rule_ops_manager", none, true⟩,
   ⟨pq [bb, pa [pq [pChief, Pat.wsP, ps "finan", pc "cs", ps "ial", Pat.wsP, pOfficers], ps "cfo"], bb],
    "12111", "Budgeting/Financial accounting manager", "rule_cfo", none, true⟩,
   ⟨pq [bb, pa [pq [pChief, Pat.wsP, ps "tech", po "n", ps "ology", Pat.wsP, pOfficers], ps "cto"], bb],
    "13301", "Chief information officer/Chief technology officer/Chief information security officer",
    "rule_cto", none, true⟩,
   ⟨pq [Pat.bos, bb, ps "director", bb, Pat.eos],
    "11201", "Managing director/Chief executive officer", "rule_ceo_md", none, true⟩,
   ⟨pq [bb, pa [pq [ps "man", pco "ae", ps "ging", Pat.wsP, ps "director", po "s"],
                pq [pChief, Pat.wsP, pExecs, Pat.wsP, pOfficers], ps "ceo"], bb],
    "11201", "Managing director/Chief executive officer", "rule_ceo_md", none, true⟩,
   ⟨pq [bb, pa [pq [pChief, Pat.wsP, ps "op", po "e", ps "ra", po "t", ps "ing", Pat.wsP, pOfficers],
                ps "coo"], bb],
    "11203", "Chief operating officer/General manager", "rule_coo_director", none, true⟩,
   ⟨pq [bb, ps "general", Pat.wsP, pa [pq [ps "m", pp "a", ps "nger"], pManagers], bb],
    "11203", "Chief operating officer/General manager", "rule_general_manager", none, true⟩,
   ⟨pq [bb, ps "pub", po "l", ps "ic", Pat.wsP,
        ps "re", po "a", pp "l", po "a", ps "t", po "i", ps "on", po "s", bb],
    "24320", "24320	Public relations/Corporate communications professional",
    "rule_public_relations", none, true⟩,
   ⟨pq [bb, pa [pq [ps "web", Pat.wsS, ps "site", po "s", Pat.wsS,
                    ps "admi", po "n", ps "i", po "s", ps "tr", pc "ae", ps "tor", po "s"],
                pq [ps "webm", pc "ae", ps "st", pco "ae", ps "r", po "s"]], bb],
    "35140", "Website administrator/Webmaster", "rule_web_admin", none, true⟩,
   ⟨pq [bb, pa [pq [ps "it", Pat.wsP, pSupport],
                pq [pa [ps "it", pq [ps "tech", po "n", po "i", po "c", ps "al"],
                        pq [ps "com", po "p", ps "ut", pco "ae", ps "r", po "s"]],
                    Pat.wsP, ps "help", Pat.wsS, ps "desk", po "s"],
                pq [ps "desktop", po "s", Pat.wsP, pSupport]], bb],
    "35123", "IT support technician", "rule_it_support", none, true⟩,
   ⟨pq [bb, pa [pq [pExecs, Pat.wsP, pAccountants],
                pq [ps "financial", Pat.wsP, pExecs]], bb],
    "24111", "Accountant (General)", "rule_exec_accountant", none, true⟩,
   ⟨pq [bb, pAccounts, Pat.star Pat.anyc, bb, pExecs, bb],
    "24111", "Accountant (General)", "rule_accounts_and_other_exec", none, true⟩,
   ⟨pq [Pat.bos, Pat.wsS, pAccountants, Pat.wsS, Pat.eos],
    "24111", "Accountant (General)", "rule_accountant_exact", none, true⟩,
   ⟨pq [bb, pa [pq [pAssistants, Pat.wsS, pAccountants], pq [pAccounts, Pat.wsS, pAssistants]],
        Pat.wsP, pExecs, bb],
    "33131", "Assistant accountant", "rule_asst_accountant_exec", none, true⟩,
   ⟨pq [bb, pa [pq [pAssistants, Pat.wsS, pAccountants], pq [pAccounts, Pat.wsS, pAssistants]], bb],
    "33131", "Assistant accountant", "rule_asst_accountant", none, true⟩,
   ⟨pq [bb, ps "finan", pc "cs", ps "e", Pat.wsP, pManagers, bb],
    "12111", "Budgeting/Financial accounting manager", "rule_finance_manager", none, true⟩,
   ⟨pq [bb, pa [pAccounts, pq [ps "a", pp "c", ps "t"]], Pat.wsP, pManagers, bb],
    "12211", "Sales manager", "rule_account_manager", none, true⟩,
   ⟨pq [bb, ps "a", pp "c", ps "o", po "u", ps "nt", po "i", ps "ng", Pat.wsP,
        pa [pManagers, ps "maanger"], bb],
    "12111", "Budgeting/Financial accounting manager", "rule_accounting_manager", none, true⟩,
   ⟨pq [bb, ps "c", pp "o", ps "k", bb], "51201", "Cook", "rule_cook", none, true⟩,
   ⟨pq [bb, ps "chef", bb], "34341", "Chef (excluding pastry chef)", "rule_chef", none, true⟩,
   ⟨pq [bb, ps "co", pp "f", Pat.pls (pc "e"), Pat.wsS, ps "mak", pco "ae", ps "r", po "s", bb],
    "94102", "Food/Drink stall assistant", "rule_coffeemaker_stall", none, true⟩,
   ⟨pq [bb, ps "barista", po "s", bb], "51321", "Barista", "rule_barista", none, true⟩,
   ⟨pq [bb, pa [pq [ps "wait", pco "ae", ps "r", po "s"],
                pq [ps "waitre", pp "s", ps "e", po "s"],
                pq [ps "s", pc "eia", ps "rvice", Pat.wsP, ps "crew"]], bb],
    "51312", "Waiter/Waitress", "rule_waiter", none, true⟩,
   ⟨pq [bb, ps "sec", pc "ue", ps "rity", Pat.wsP,
        pa [pq [ps "gu", po "a", ps "rd", po "s"], pOfficers], bb],
    "54144", "Security officer", "rule_security", none, true⟩,
   ⟨pq [bb, pa [pq [ps "dish", Pat.wsP, ps "washer"], ps "dishwasher"], bb],
    "91153", "Dishwasher", "rule_dishwasher", none, true⟩,
   ⟨pq [ps "food", Pat.wsP,
        pa [pq [ps "pro", pp "c", ps "e", pp "s", ps "ing"],
            pq [ps "pro", pp "c", pc "eo", pp "s", pc "eo", ps "r"]]],
    "75190", "Food processing and related trades worker n.e.c.", "rule_food_processor", none, true⟩,
   ⟨pa [pq [bb, ps "ma", pp "s", ps "eur"],
        pq [ps "ma", pp "s", ps "eus", po "e"],
        pq [ps "ma", pp "s", ps "age", bb]],
    "32551", "Massage therapist", "rule_massage_therapist", none, true⟩,
   ⟨pq [bb, pa [pq [ps "past", pc "oe", ps "r", po "s"],
                pq [ps "pr", pc "ie", pc "ie", ps "st", po "s"],
                pq [ps "rev", Pat.opt (pq [ps "er", pc "ae", ps "nd"])],
                pq [ps "im", pc "ae", ps "m", po "s"],
                pq [ps "monk", po "s"],
                pq [ps "clerg", pc "ey"]], bb],
    "26369", "Religious professional", "rule_religious_professional", none, true⟩,
   ⟨pq [bb, pa [pOffice, pAdminAdj], Pat.wsP, pManagers, bb],
    "12112", "Administration/Office manager", "rule_admin_office_manager", none, true⟩,
   ⟨pq [bb, pAdminAdj, Pat.wsP, pa [pExecs, pOfficers], bb],
    "41101", "General office clerk", "rule_admin_exec", none, true⟩,
   ⟨pq [bb, pAdminAdj, Pat.wsP, pAssistants, bb],
    "41101", "General office clerk", "rule_admin_asst", none, true⟩,
   ⟨pq [bb, pAdminAdj, Pat.wsP, pClerks, bb],
    "41101", "General office clerk", "rule_admin_clerk", none, true⟩,
   ⟨pq [bb, pAdminAdjRev, Pat.wsP, pWorkers, bb],
    "41101", "General office clerk", "rule_admin_worker", none, true⟩,
   ⟨pq [Pat.bos, Pat.wsS, pAdminAdjRev, Pat.wsP, ps "work", Pat.wsS, Pat.eos],
    "41101", "General office clerk", "rule_admin_work_exact", none, true⟩,
   ⟨pq [Pat.bos, Pat.wsS,
        pa [ps "admin",
            pq [ps "admi", po "n", po "i", ps "stration"],
            pq [ps "admi", po "n", po "i", ps "strator"],
            pq [ps "adm", po "i", ps "n", po "i", ps "strat", po "i", ps "on"]],
        Pat.wsS, Pat.eos],
    "41101", "General office clerk", "rule_admin_exact", none, true⟩,
   ⟨pq [bb, ps "rec", pc "ei", ps "ptionist", po "s", bb],
    "42261", "Receptionist", "rule_receptionist", none, true⟩,
   ⟨pq [bb, pAdminAdj, bb],
    "41101", "General office clerk", "rule_admin_general_catch", none, true⟩,
   ⟨pq [Pat.bos, Pat.wsS, pClerks, Pat.wsS, Pat.eos],
    "41101", "General office clerk", "rule_clerk_exact", none, true⟩,
   ⟨pq [bb, pa [pq [ps "p", pco "ae", ps "rson", pc "ae", ps "l", po "s", Pat.wsP, pAssistants],
                ps "pa"], bb],
    "33494", "Executive secretary", "rule_personal_assistant_pa", none, true⟩,
   ⟨pq [bb, pa [pq [ps "op", po "e", ps "rat", po "i", ps "ons"], ps "ops"], Pat.wsP,
        pa [pq [ps "ex", po "e", ps "c", po "u", ps "t", po "i", ps "v", po "e"],
            pq [ps "exec", Pat.opt Pat.anyc]], bb],
    "33492", "Operations officer (administrative)", "rule_ops_exec", none, true⟩]

/-- The full ordered `_BAKED_RULES` list. -/
def _BAKED_RULES : List BakedRule := _BAKED_RULES_A ++ _BAKED_RULES_B

/-- The condition the spec ascribes to a rule: primary pattern on the text
    selected by the title-only flag, plus the required-context pattern on the
    combined text when present. -/
def rulePatternCueSatisfied (r : BakedRule) (t_norm both_norm : String) : Bool :=
  psearch r.rx (if r.titleOnly then t_norm else both_norm) &&
    (match r.cue with
     | none => true
     | some cue => psearch cue both_norm)

/-- The condition the rule loop of `_apply_baked_rules` actually requires: the
    pattern and context conditions, and additionally, for the rule whose id
    contains `rule_admin_exec`, that the combined text mentions `exec` (the
    loop `continue`s past that rule otherwise). -/
def ruleLoopSatisfied (r : BakedRule) (t_norm both_norm : String) : Bool :=
  rulePatternCueSatisfied r t_norm both_norm &&
    !(pyIn "rule_admin_exec" r.reason &&
      (!(pyIn "executive" both_norm) && !(pyIn "exec" both_norm)))

/-- The linear scan over the rule list inside `_apply_baked_rules`, with the
    `continue` branches for a failed required-context pattern and for the
    `rule_admin_exec` guard. -/
def bakedScan (t_norm both_norm : String) : List BakedRule → Option (String × String × String)
  | [] => none
  | r :: rest =>
    if psearch r.rx (if r.titleOnly then t_norm else both_norm) then
      if (match r.cue with
          | some cue => !(psearch cue both_norm)
          | none => false) then
        bakedScan t_norm both_norm rest
      else if pyIn "rule_admin_exec" r.reason &&
              (!(pyIn "executive" both_norm) && !(pyIn "exec" both_norm)) then
        bakedScan t_norm both_norm rest
      else some (r.code, r.occTitle, r.reason)
    else bakedScan t_norm both_norm rest

/-- The compound conditional rules and the painter default run by
    `_apply_baked_rules` after the ordered scan finds no match. -/
def bakedCompound (t_norm both_norm : String) : Option (String × String × String) :=
  if pyIn "supervisor" t_norm && psearch _CONSTRUCTION_LABOUR_CUES both_norm then
    some ("83000", "Mobile machinery supervisor/general foreman", "rule_supervisor_construction")
  else if pyIn "manager" t_norm && psearch _CONSTRUCTION_LABOUR_CUES both_norm then
    some ("13299", "Other production/operations manager n.e.c.", "rule_manager_construction")
  else if pyIn "engineer" t_norm &&
          (psearch _DRAFTER_CUES both_norm || pyIn "layout" both_norm ||
           pyIn "technical drawing" both_norm) &&
          (psearch _CONSTRUCTION_LABOUR_CUES both_norm || pyIn "civil" both_norm ||
           pyIn "structural" both_norm || pyIn "construction" both_norm) then
    some ("21421", "Civil engineer", "rule_engineer_drawings_construction")
  else if pyIn "painter" both_norm then
    if psearch _VEHICLE_CUES both_norm then
      some ("71322", "Motor vehicle spray painter", "rule_painter_vehicle_context")
    else
      some ("71311", "House/Building painter", "rule_painter_building_default")
  else none

/-- `_apply_baked_rules`: the ordered rule scan followed by the compound
    conditional rules and the painter default. -/
def _apply_baked_rules (title_text duties_text : String) : Option (String × String × String) :=
  let t_norm := _normalize title_text
  let d_norm := _normalize duties_text
  let both_norm := pyStrip (t_norm ++ " " ++ d_norm)
  match bakedScan t_norm both_norm _BAKED_RULES with
  | some res => some res
  | none => bakedCompound t_norm both_norm

-- ===================== statistical path and cascade =====================

/-- An entry of the candidate list / top-5 report: score, code, title (the
    per-candidate explain string of the source is diagnostic text only and is
    not modelled). -/
structure Cand where
  score : Q
  code : String
  title : String
deriving Repr, DecidableEq

/-- The running best of a candidate loop (`best_s` starting at `-1.0`,
    `best_r` starting at `None`; a candidate replaces the best only when its
    score is strictly greater, so the first maximal candidate wins). -/
def bestFold (scorer : TaxRec → Q × Nat) (l : List TaxRec) : Q × Option TaxRec :=
  l.foldl (fun acc r => let s := (scorer r).1; if acc.1 < s then (s, some r) else acc)
    ((-1 : Q), none)

/-- The classification result tuple `(code, title, confidence, explanation,
    top_5, strategy)` returned by `best_match_duties_priority`.  Explanation
    strings on the statistical path (printf renderings of the score factors)
    are modelled as empty strings. -/
structure MatchResult where
  code : String
  occTitle : String
  confidence : Q
  explanation : String
  top5 : List Cand
  strategy : String
deriving Repr, DecidableEq

/-- Stable insertion into a descending-sorted candidate list (equal scores
    keep the original order, as Python stable `sort(reverse=True)`). -/
def insDesc (x : Cand) : List Cand → List Cand
  | [] => [x]
  | y :: ys => if x.score < y.score then y :: insDesc x ys else x :: y :: ys

/-- Stable descending sort by score. -/
def sortByScoreDesc (l : List Cand) : List Cand := l.foldr insDesc []

/-- `_find_best_4_digit_parent`: scores the records whose codes are the
    4-character prefixes of the top-5 codes and returns the best. -/
def _find_best_4_digit_parent (top_5_candidates : List Cand) (all_defs : List TaxRec)
    (scorer : TaxRec → Q × Nat) : Option (Q × TaxRec) :=
  if top_5_candidates.isEmpty then none
  else
    let parent_codes :=
      (top_5_candidates.filter (fun c => !c.code.isEmpty)).map (fun c => pySliceTo c.code 4)
    let parent_records := all_defs.filter (fun rec => parent_codes.contains rec.code)
    if parent_records.isEmpty then none
    else
      let best := bestFold scorer parent_records
      match best.2 with
      | some r => some (best.1, r)
      | none => none

/-- The pre-guard selection of the statistical path: scored best candidate
    plus the 4-digit-parent fallback, before the forced-assignment guard. -/
structure StatSel where
  code : String
  occTitle : String
  score : Q
  strategy : String
  top5 : List Cand
deriving Repr, DecidableEq

/-- The per-record `scorer` closure built by the statistical path: the
    combined query text is normalized, tokenized and bigrammed once and
    passed to `_score_vs_record_precomputed`. -/
def rowScorer (title_text duties_text edu_text_for_row : String)
    (group_hint : Option String) (company_industry : String) (rec : TaxRec) : Q × Nat :=
  let q_text := pyStrip (title_text ++ " " ++ duties_text)
  let q_norm := _normalize q_text
  _score_vs_record_precomputed title_text duties_text q_norm (setOfList (_tokens q_norm))
    (_bigrams_from_text q_norm) rec edu_text_for_row group_hint company_industry

/-- The substitution of a 4-digit parent result for a below-bar best leaf
    (the inner branch of the statistical selection). -/
def statSelParent (min_score_0_to_1 : Q) (label : String) (top_5 : List Cand) (best_s : Q)
    (bestR : TaxRec) : Option (Q × TaxRec) → StatSel
  | some (s4, r4) =>
    if min_score_0_to_1 ≤ s4 then ⟨r4.code, r4.title, s4, "4-Digit Fallback", top_5⟩
    else ⟨bestR.code, bestR.title, best_s, label, top_5⟩
  | none => ⟨bestR.code, bestR.title, best_s, label, top_5⟩

/-- The selection made from the result of the scoring fold: X1000 when no
    candidate was scored, otherwise the best candidate with the 4-digit
    parent fallback when it is below the bar. -/
def statSelPick (min_score_0_to_1 : Q) (label : String) (top_5 : List Cand) (best_s : Q)
    (defs : List TaxRec) (scorer : TaxRec → Q × Nat) : Option TaxRec → StatSel
  | none => ⟨"X1000", xTitle "X1000", 0.0, label, top_5⟩
  | some bestR =>
    if best_s < min_score_0_to_1 then
      statSelParent min_score_0_to_1 label top_5 best_s bestR
        (_find_best_4_digit_parent top_5 defs scorer)
    else ⟨bestR.code, bestR.title, best_s, label, top_5⟩

/-- Lines 1998-2034 of the source: combined query text, shortlist, scoring
    loop over the 5-digit candidates, top-5 extraction, and the 4-digit
    parent fallback when the best leaf score is below the acceptance bar.
    `shortlist` stands for `_tfidf_topk_indices` applied to the query text
    (`none` when the index is unavailable or has no hit). -/
def statSelect (title_text duties_text : String) (defs : List TaxRec)
    (min_score_0_to_1 : Q) (edu_text_for_row : String) (group_hint : Option String)
    (company_industry : String) (shortlist : String → Option (List Nat)) : StatSel :=
  let q_text := pyStrip (title_text ++ " " ++ duties_text)
  let label := "Title + Duties (Combined)"
  let scorer := rowScorer title_text duties_text edu_text_for_row group_hint company_industry
  let five_digit_candidates := defs.filter recIs5d
  let cand_iter_5d :=
    match shortlist q_text with
    | some idxs => (idxs.filterMap (fun i => defs.get? i)).filter recIs5d
    | none => five_digit_candidates
  let all_candidates := cand_iter_5d.map (fun r => Cand.mk (scorer r).1 r.code r.title)
  let top_5 := (sortByScoreDesc all_candidates).take 5
  let best := bestFold scorer cand_iter_5d
  statSelPick min_score_0_to_1 label top_5 best.1 defs scorer best.2

/-- The statistical path with the forced-assignment guard of lines 2036-2038:
    a final selection still below the bar whose code is not a reserved X-code
    is replaced by X1000. -/
def statPath (title_text duties_text : String) (defs : List TaxRec)
    (min_score_0_to_1 : Q) (edu_text_for_row : String) (group_hint : Option String)
    (company_industry : String) (shortlist : String → Option (List Nat)) : MatchResult :=
  let sel := statSelect title_text duties_text defs min_score_0_to_1 edu_text_for_row
    group_hint company_industry shortlist
  if sel.score < min_score_0_to_1 && !(pyStartsWith sel.code "X") then
    ⟨"X1000", xTitle "X1000", sel.score, "", sel.top5, sel.strategy⟩
  else ⟨sel.code, sel.occTitle, sel.score, "", sel.top5, sel.strategy⟩

/-- The Exact Title stage (third priority): lookup of the normalized query
    title in the title map, accepted only when the owning record is a
    5-digit leaf. -/
def exactTitleStage (title_map : List (String × TaxRec)) (norm_title : String) :
    Option MatchResult :=
  match title_map.find? (fun p => p.1 = norm_title) with
  | some p =>
    if recIs5d p.2 then
      some ⟨p.2.code, p.2.title, 1.0, "Exact Title Match", [], "Exact Title Match"⟩
    else none
  | none => none

/-- The armed-forces/diplomatic X-code stage: a hit of `_xcode_checker` is
    accepted here only for the codes X3000/X4000/X5000. -/
def xcodeStage (duties_text title_text : String) : Option MatchResult :=
  match _xcode_checker duties_text title_text with
  | some (c, t) =>
    if c = "X3000" || c = "X4000" || c = "X5000" then
      some ⟨c, t, 1.0, "xcode-direct", [], "X-Code"⟩
    else none
  | none => none

/-- `best_match_duties_priority`: the full priority cascade.  Stage order as
    in the source: baked rules, validated expert map, exact title, X-codes
    and the empty-input case, then the statistical path. -/
def best_match_duties_priority (title_text0 duties_text0 : String) (defs : List TaxRec)
    (title_map : List (String × TaxRec)) (expert_map : List ExpertEntry)
    (min_score_0_to_1 : Q) (edu_text_for_row : String)
    (occ_group_hint_raw : String) (company_industry : String)
    (shortlist : String → Option (List Nat)) : MatchResult :=
  let duties_text := pyStrip duties_text0
  let title_text := pyStrip title_text0
  let norm_title := _normalize title_text
  let group_hint := _parse_occ_group_hint occ_group_hint_raw
  match _apply_baked_rules title_text duties_text with
  | some (code, occ_title, reason) => ⟨code, occ_title, 0.66, reason, [], "Baked-in Rule"⟩
  | none =>
    match _validate_expert_match title_text duties_text expert_map defs with
    | some (code, t) => ⟨code, t, 1.0, "Expert Map Match (Validated)", [], "Expert Map Match"⟩
    | none =>
      match exactTitleStage title_map norm_title with
      | some r => r
      | none =>
        match xcodeStage duties_text title_text with
        | some r => r
        | none =>
          if duties_text.isEmpty && title_text.isEmpty then
            ⟨"X2000", xTitle "X2000", 1.0, "xcode-noinfo", [], "No Input"⟩
          else
            statPath title_text duties_text defs min_score_0_to_1 edu_text_for_row
              group_hint company_industry shortlist

-- ===================== TF-IDF shortlist model =====================

/-- Maximal word-character runs of length at least two: the tokens of
    sklearn TfidfVectorizer default token pattern `\w\w+`. -/
def wordRunsAux : List Char → List Char → List (List Char)
  | [], acc => [acc.reverse]
  | c :: cs, acc =>
    if wordChar c then wordRunsAux cs (c :: acc)
    else acc.reverse :: wordRunsAux cs []

/-- Tokens of a document for the shortlist index. -/
def sklearnTokens (s : String) : List String :=
  ((wordRunsAux s.data []).filter (fun w => 2 ≤ w.length)).map String.mk

/-- The 1-gram and 2-gram terms of a document (ngram_range (1,2), bigrams
    joined with a space), as a set. -/
def sklearnTerms (s : String) : List String :=
  let toks := sklearnTokens s
  setOfList (toks ++ (toks.zip toks.tail).map (fun p => p.1 ++ " " ++ p.2))

/-- The vectorizer vocabulary: terms contained in at least two documents
    (min_df=2 of the source). -/
def tfidfVocab (docs : List String) : List String :=
  let termSets := docs.map sklearnTerms
  (setOfList termSets.flatten).filter
    (fun t => 2 ≤ (termSets.filter (fun d => d.contains t)).length)

/-- The index corpus built in `main`: per record, `title_norm` and
    `blob_norm` joined and stripped. -/
def tfidfDocs (defs : List TaxRec) : List String :=
  defs.map (fun r => pyStrip (recTitleNorm r ++ " " ++ recBlobNorm r))

/-- Modelled from the spec: `_tfidf_topk_indices`, the startup-built
    term-weighted index over 1-2 word terms that retrieves the K nearest
    documents by cosine similarity (sklearn TfidfVectorizer with min_df=2 and
    cosine_similarity; the numeric idf weights are library floating-point
    internals outside this repository).  A document has nonzero cosine
    similarity with the query exactly when it shares a vocabulary term with
    it, and only such documents are retrieved (the sparse similarity row of
    the source holds only them); `none` is returned for an empty normalized
    query or an all-zero row.  The cosine ordering among retrieved documents
    is not modelled: the returned hits are in document order, and the claims
    below apply this model only where at most one 5-digit candidate is
    retrieved, so that ordering cannot affect the outcome. -/
def tfidfTopkModel (docs : List String) (kk : Nat) (query_text : String) : Option (List Nat) :=
  let q := _normalize query_text
  if q.isEmpty then none
  else
    let vocab := tfidfVocab docs
    let qTerms := (sklearnTerms q).filter (fun t => vocab.contains t)
    let hits := (docs.enum.filter
      (fun p => !(sInter qTerms (sklearnTerms p.2)).isEmpty)).map (fun p => p.1)
    if hits.isEmpty then none else some (hits.take kk)

/-- The graduated industry multiplier as a function of the rational value of
    the overlap fraction (the step thresholds of `_get_industry_multiplier`). -/
def industryStep (x : ℚ) : ℚ :=
  if 3/4 < x then 7/5 else if 2/5 < x then 6/5 else 1

-- ===================== concrete instances used by the proofs =====================

/-- A leaf record sharing a blob token with the query of the shortlist
    instance but with low score. -/
def recA : TaxRec := ⟨"11111", "flumvor", "flumvor kraven", ["flumvor"]⟩

/-- A leaf record with high score for that query whose index document shares
    no vocabulary term with it (its words are single letters). -/
def recB : TaxRec := ⟨"22222", "z q v w", "z q v w", ["z q v w"]⟩

/-- A non-leaf record keeping the shared term above the min_df=2 document
    frequency cut. -/
def recC : TaxRec := ⟨"1111", "kraven", "kraven", ["kraven"]⟩

/-- The taxonomy of the shortlist instance. -/
def c7defs : List TaxRec := [recA, recB, recC]

/-- The title-lookup map the loader would build for `c7defs`. -/
def c7titleMap : List (String × TaxRec) :=
  [("flumvor", recA), ("z q v w", recB), ("kraven", recC)]

-- =====================================================================
-- Theorems
-- =====================================================================

-- ---------- facts about the normalization pipeline (claim C9) ----------

theorem map_id_of_fixed {f : Char → Char} : ∀ l : List Char, (∀ c ∈ l, f c = c) → l.map f = l
  | [], _ => rfl
  | c :: cs, h => by
    simp only [List.map_cons, h c (List.mem_cons_self c cs)]
    rw [map_id_of_fixed cs (fun c' hc' => h c' (List.mem_cons_of_mem c hc'))]

theorem filter_id_of_true {p : Char → Bool} :
    ∀ l : List Char, (∀ c ∈ l, p c = true) → l.filter p = l
  | [], _ => rfl
  | c :: cs, h => by
    simp only [List.filter_cons, h c (List.mem_cons_self c cs), if_true]
    rw [filter_id_of_true cs (fun c' hc' => h c' (List.mem_cons_of_mem c hc'))]

theorem pyToLower_fixed_of_lower {c : Char} (h : lowerAZ c = true) : pyToLower c = c := by
  simp only [lowerAZ, Bool.and_eq_true, decide_eq_true_eq] at h
  unfold pyToLower
  rw [if_neg (by omega)]

theorem sepChar_false_of_lower {c : Char} (h : lowerAZ c = true) : sepChar c = false := by
  simp only [lowerAZ, Bool.and_eq_true, decide_eq_true_eq] at h
  simp only [sepChar]
  simp only [Bool.or_eq_false_iff, decide_eq_false_iff_not]
  omega

theorem pyWSChar_false_of_lower {c : Char} (h : lowerAZ c = true) : pyWSChar c = false := by
  simp only [lowerAZ, Bool.and_eq_true, decide_eq_true_eq] at h
  simp only [pyWSChar]
  simp only [Bool.or_eq_false_iff, decide_eq_false_iff_not]
  omega

theorem collapseSepsAux_id : ∀ (l : List Char) (b : Bool),
    (∀ c ∈ l, sepChar c = false) → collapseSepsAux b l = l
  | [], _, _ => rfl
  | c :: cs, b, h => by
    simp only [collapseSepsAux, h c (List.mem_cons_self c cs), Bool.false_eq_true,
      if_false, List.cons.injEq, true_and]
    exact collapseSepsAux_id cs false (fun c' hc' => h c' (List.mem_cons_of_mem c hc'))

theorem mem_joinWords : ∀ (ws : List (List Char)) (c : Char), c ∈ joinWords ws →
    c = ' ' ∨ ∃ w ∈ ws, c ∈ w := by
  intro ws
  induction ws with
  | nil => intro c hc; cases hc
  | cons w ws ih =>
    intro c hc
    cases ws with
    | nil =>
      right; exact ⟨w, List.mem_cons_self w [], hc⟩
    | cons w' ws' =>
      simp only [joinWords] at hc
      rcases List.mem_append.mp hc with hw | hrest
      · right; exact ⟨w, List.mem_cons_self _ _, hw⟩
      · rcases List.mem_cons.mp hrest with hsp | hjw
        · left; exact hsp
        · rcases ih c hjw with hsp | ⟨w2, hw2, hcw2⟩
          · left; exact hsp
          · right; exact ⟨w2, List.mem_cons_of_mem _ hw2, hcw2⟩

theorem splitWSAux_word : ∀ (w l acc : List Char), (∀ c ∈ w, pyWSChar c = false) →
    splitWSAux (w ++ l) acc = splitWSAux l (w.reverse ++ acc)
  | [], l, acc, _ => by simp
  | c :: w', l, acc, h => by
    show splitWSAux (c :: (w' ++ l)) acc = _
    simp only [splitWSAux, h c (List.mem_cons_self c w'), Bool.false_eq_true, if_false]
    rw [splitWSAux_word w' l (c :: acc) (fun c' hc' => h c' (List.mem_cons_of_mem c hc'))]
    simp

theorem wsWords_joinWords : ∀ ws : List (List Char),
    (∀ w ∈ ws, w ≠ [] ∧ ∀ c ∈ w, pyWSChar c = false) → wsWords (joinWords ws) = ws := by
  intro ws
  induction ws with
  | nil => intro _; rfl
  | cons w ws ih =>
    intro h
    obtain ⟨hw_ne, hw_chars⟩ := h w (List.mem_cons_self w ws)
    have hwE : (!w.isEmpty) = true := by
      cases w with
      | nil => exact absurd rfl hw_ne
      | cons a b => rfl
    cases ws with
    | nil =>
      have hjw : joinWords [w] = w ++ [] := by simp [joinWords]
      rw [wsWords, hjw, splitWSAux_word w [] [] hw_chars]
      simp only [splitWSAux, List.append_nil, List.reverse_reverse, List.filter, hwE]
    | cons w' ws' =>
      have hjw : joinWords (w :: w' :: ws') = w ++ ' ' :: joinWords (w' :: ws') := rfl
      rw [wsWords, hjw, splitWSAux_word w _ [] hw_chars]
      simp only [splitWSAux, show pyWSChar ' ' = true from rfl, if_true, List.append_nil,
        List.reverse_reverse, List.filter, hwE]
      have hrec := ih (fun w2 hw2 => h w2 (List.mem_cons_of_mem w hw2))
      simp only [wsWords] at hrec
      rw [hrec]

theorem mem_splitWSAux : ∀ (l acc w : List Char), w ∈ splitWSAux l acc →
    ∀ c ∈ w, c ∈ acc ∨ (c ∈ l ∧ pyWSChar c = false) := by
  intro l
  induction l with
  | nil =>
    intro acc w hw c hc
    simp only [splitWSAux, List.mem_singleton] at hw
    subst hw
    exact Or.inl (List.mem_reverse.mp hc)
  | cons c0 l' ih =>
    intro acc w hw c hc
    simp only [splitWSAux] at hw
    by_cases h0 : pyWSChar c0 = true
    · rw [if_pos h0] at hw
      rcases List.mem_cons.mp hw with hw1 | hw2
      · subst hw1
        exact Or.inl (List.mem_reverse.mp hc)
      · rcases ih [] w hw2 c hc with h | ⟨hmem, hws⟩
        · cases h
        · exact Or.inr ⟨List.mem_cons_of_mem _ hmem, hws⟩
    · rw [if_neg h0] at hw
      rcases ih (c0 :: acc) w hw c hc with hacc | ⟨hmem, hws⟩
      · rcases List.mem_cons.mp hacc with rfl | hacc'
        · exact Or.inr ⟨List.mem_cons_self _ _, Bool.not_eq_true _ ▸ h0⟩
        · exact Or.inl hacc'
      · exact Or.inr ⟨List.mem_cons_of_mem _ hmem, hws⟩

theorem normWords_good (l : List Char) :
    ∀ w ∈ normWords l, w ≠ [] ∧ ∀ c ∈ w, lowerAZ c = true := by
  intro w hw
  simp only [normWords, wsWords, List.mem_filter] at hw
  obtain ⟨hmem, hne⟩ := hw
  constructor
  · intro hnil; subst hnil; simp at hne
  · intro c hc
    rcases mem_splitWSAux _ [] w hmem c hc with h | ⟨hmem2, hws⟩
    · cases h
    · have hkeep := (List.mem_filter.mp hmem2).2
      simp only [Bool.or_eq_true] at hkeep
      rcases hkeep with h | h
      · exact h
      · rw [h] at hws; cases hws

/-- C9: text normalization is idempotent: `normalize(normalize(x))` equals
    `normalize(x)` for every input string, where normalize lowercases,
    replaces separator punctuation with spaces, strips remaining non-letter
    characters and collapses whitespace. -/
theorem normalize_idempotent (x : String) : _normalize (_normalize x) = _normalize x := by
  show String.mk (joinWords (normWords (joinWords (normWords x.data)))) =
    String.mk (joinWords (normWords x.data))
  have hgood := normWords_good x.data
  have hchars : ∀ c ∈ joinWords (normWords x.data), c = ' ' ∨ lowerAZ c = true := by
    intro c hc
    rcases mem_joinWords _ c hc with h | ⟨w, hw, hcw⟩
    · exact Or.inl h
    · exact Or.inr ((hgood w hw).2 c hcw)
  congr 1
  have h1 : (joinWords (normWords x.data)).map pyToLower = joinWords (normWords x.data) := by
    apply map_id_of_fixed
    intro c hc
    rcases hchars c hc with rfl | h
    · rfl
    · exact pyToLower_fixed_of_lower h
  have h2 : collapseSeps (joinWords (normWords x.data)) = joinWords (normWords x.data) := by
    apply collapseSepsAux_id
    intro c hc
    rcases hchars c hc with rfl | h
    · rfl
    · exact sepChar_false_of_lower h
  have h3 : (joinWords (normWords x.data)).filter (fun c => lowerAZ c || pyWSChar c) =
      joinWords (normWords x.data) := by
    apply filter_id_of_true
    intro c hc
    rcases hchars c hc with rfl | h
    · rfl
    · simp [h]
  have h4 : wsWords (joinWords (normWords x.data)) = normWords x.data := by
    apply wsWords_joinWords
    intro w hw
    refine ⟨(hgood w hw).1, fun c hc => pyWSChar_false_of_lower ((hgood w hw).2 c hc)⟩
  show joinWords (wsWords ((collapseSeps ((joinWords (normWords x.data)).map pyToLower)).filter _)) =
    joinWords (normWords x.data)
  rw [h1, h2, h3, h4]

-- ---------- claims C10 and C1: rule stage behaviour ----------

/-- C10: the deterministic-rule path can emit a non-leaf code: for the input
    whose title normalizes to exactly `driver` with empty duties, the
    classifier returns the 4-digit code 8322 via the baked rule for bare
    driver titles, so the final result code is not always a 5-digit leaf
    even outside the parent-fallback stage. -/
theorem driver_rule_emits_non_leaf_code :
    best_match_duties_priority "driver" "" [] [] [] 0.05 "" "" "" (fun _ => none) =
      ⟨"8322", "Car/Taxi/Van/Light goods vehicle driver", 0.66, "rule_driver_exact", [],
        "Baked-in Rule"⟩ ∧
    _normalize "driver" = "driver" ∧ is5dCode "8322" = false := by
  refine ⟨by decide, by decide, by decide⟩

/-- C1 (counterexample): a query whose normalized title has a context-valid
    override entry (`cashier`, a non-manager/engineer override, accepted
    unconditionally) is nevertheless resolved by the deterministic rule
    `rule_cashier` with code 52302 and confidence 0.66, not by the override
    code with confidence 1.0. -/
theorem override_does_not_precede_rules :
    _validate_expert_match "cashier" "" [⟨"cashier", "99999", "Zorp"⟩] [] =
      some ("99999", "Zorp") ∧
    best_match_duties_priority "cashier" "" [] [] [⟨"cashier", "99999", "Zorp"⟩] 0.05 ""
      "" "" (fun _ => none) =
      ⟨"52302", "Cashier (general)", 0.66, "rule_cashier", [], "Baked-in Rule"⟩ ∧
    ("52302" : String) ≠ "99999" := by
  refine ⟨by decide, by decide, by decide⟩

/-- C1 (amended): the Deterministic Rules stage is tried before the Curated
    Override stage: whenever a baked rule fires on the stripped title and
    duties, the classifier returns that rule's code and title with
    confidence 0.66, regardless of the contents of the expert override map;
    a context-valid override is consulted only when no rule fires. -/
theorem rules_stage_precedes_override_stage
    (title duties : String) (defs : List TaxRec) (title_map : List (String × TaxRec))
    (expert_map : List ExpertEntry) (min_score : Q) (edu hint industry : String)
    (shortlist : String → Option (List Nat)) (c ot r : String)
    (h : _apply_baked_rules (pyStrip title) (pyStrip duties) = some (c, ot, r)) :
    best_match_duties_priority title duties defs title_map expert_map min_score edu hint
      industry shortlist = ⟨c, ot, 0.66, r, [], "Baked-in Rule"⟩ := by
  simp only [best_match_duties_priority, h]

theorem rules_stage_precedes_override_stage_witness :
    best_match_duties_priority "cashier" "" [] [] [⟨"cashier", "99999", "Zorp"⟩] 0.05 ""
      "" "" (fun _ => none) =
      ⟨"52302", "Cashier (general)", 0.66, "rule_cashier", [], "Baked-in Rule"⟩ :=
  rules_stage_precedes_override_stage "cashier" "" [] [] [⟨"cashier", "99999", "Zorp"⟩]
    0.05 "" "" "" (fun _ => none) "52302" "Cashier (general)" "rule_cashier" (by decide)

-- ---------- claim C6: rule order ----------

theorem bakedScan_eq_find (t b : String) : ∀ rules : List BakedRule,
    bakedScan t b rules =
      (rules.find? (fun r => ruleLoopSatisfied r t b)).map
        (fun r => (r.code, r.occTitle, r.reason))
  | [] => rfl
  | ⟨rx, code, occT, rsn, none, tOnly⟩ :: rest => by
    have ih := bakedScan_eq_find t b rest
    by_cases hp : psearch rx (if tOnly then t else b) = true
    · by_cases hadm : (pyIn "rule_admin_exec" rsn &&
          (!(pyIn "executive" b) && !(pyIn "exec" b))) = true
      · simp only [bakedScan, List.find?, ruleLoopSatisfied, rulePatternCueSatisfied, hp,
          hadm, if_true, if_false, Bool.false_eq_true, Bool.and_true, Bool.not_true,
          Bool.and_false, ih]
      · rw [Bool.not_eq_true] at hadm
        simp only [bakedScan, List.find?, ruleLoopSatisfied, rulePatternCueSatisfied, hp,
          hadm, if_true, if_false, Bool.false_eq_true, Bool.and_true, Bool.not_false,
          Bool.and_false, ih, Option.map]
    · rw [Bool.not_eq_true] at hp
      simp only [bakedScan, List.find?, ruleLoopSatisfied, rulePatternCueSatisfied, hp,
        if_false, Bool.false_eq_true, Bool.false_and, Bool.and_true, ih]
  | ⟨rx, code, occT, rsn, some cue, tOnly⟩ :: rest => by
    have ih := bakedScan_eq_find t b rest
    by_cases hp : psearch rx (if tOnly then t else b) = true
    · by_cases hcue : psearch cue b = true
      · by_cases hadm : (pyIn "rule_admin_exec" rsn &&
            (!(pyIn "executive" b) && !(pyIn "exec" b))) = true
        · simp only [bakedScan, List.find?, ruleLoopSatisfied, rulePatternCueSatisfied, hp,
            hcue, hadm, if_true, if_false, Bool.not_true, Bool.false_eq_true, Bool.and_true,
            Bool.and_false, ih]
        · rw [Bool.not_eq_true] at hadm
          simp only [bakedScan, List.find?, ruleLoopSatisfied, rulePatternCueSatisfied, hp,
            hcue, hadm, if_true, if_false, Bool.not_true, Bool.not_false, Bool.false_eq_true,
            Bool.and_true, Bool.and_false, ih, Option.map]
      · rw [Bool.not_eq_true] at hcue
        simp only [bakedScan, List.find?, ruleLoopSatisfied, rulePatternCueSatisfied, hp,
          hcue, if_true, if_false, Bool.not_false, Bool.false_eq_true, Bool.and_false,
          Bool.false_and, Bool.and_true, ih]
    · rw [Bool.not_eq_true] at hp
      simp only [bakedScan, List.find?, ruleLoopSatisfied, rulePatternCueSatisfied, hp,
        if_false, Bool.false_eq_true, Bool.false_and, ih]

theorem find_first_of_get {α : Type} (p : α → Bool) :
    ∀ (l : List α) (i : Nat) (hi : i < l.length), p (l.get ⟨i, hi⟩) = true →
      ∃ k, ∃ hk : k < l.length, k ≤ i ∧ p (l.get ⟨k, hk⟩) = true ∧
        l.find? p = some (l.get ⟨k, hk⟩) := by
  intro l
  induction l with
  | nil => intro i hi; simp at hi
  | cons a l' ih =>
    intro i hi hp
    by_cases ha : p a = true
    · exact ⟨0, by simp, Nat.zero_le i, ha, by simp [List.find?, ha]⟩
    · cases i with
      | zero => simp only [List.get] at hp; exact absurd hp ha
      | succ i' =>
        have hi' : i' < l'.length := by simpa using hi
        have hp' : p (l'.get ⟨i', hi'⟩) = true := by simpa [List.get] using hp
        obtain ⟨k, hk, hki, hpk, hfind⟩ := ih i' hi' hp'
        refine ⟨k + 1, by simpa using hk, Nat.succ_le_succ hki, by simpa [List.get] using hpk, ?_⟩
        rw [Bool.not_eq_true] at ha
        simp only [List.find?, ha, List.get]
        exact hfind

/-- C6 (amended): the baked rule engine is first-match-wins in declaration
    order with respect to the rules' full firing conditions (primary pattern
    on the flag-selected text, required-context pattern if present, and the
    additional exec-mention condition the loop attaches to the rule with id
    rule_admin_exec): whenever the rules at positions i < j both satisfy
    those conditions on a text, the rule scan returns the (code, title, id)
    of the earliest satisfying rule, whose position is at most i, with no
    scoring involved. -/
theorem baked_rules_first_match_wins (t_norm both_norm : String) (i j : Nat)
    (hi : i < _BAKED_RULES.length) (hj : j < _BAKED_RULES.length) (hij : i < j)
    (hsi : ruleLoopSatisfied (_BAKED_RULES.get ⟨i, hi⟩) t_norm both_norm = true)
    (hsj : ruleLoopSatisfied (_BAKED_RULES.get ⟨j, hj⟩) t_norm both_norm = true) :
    ∃ k, ∃ hk : k < _BAKED_RULES.length, k ≤ i ∧
      ruleLoopSatisfied (_BAKED_RULES.get ⟨k, hk⟩) t_norm both_norm = true ∧
      bakedScan t_norm both_norm _BAKED_RULES =
        some ((_BAKED_RULES.get ⟨k, hk⟩).code, (_BAKED_RULES.get ⟨k, hk⟩).occTitle,
          (_BAKED_RULES.get ⟨k, hk⟩).reason) := by
  obtain ⟨k, hk, hki, hpk, hfind⟩ :=
    find_first_of_get (fun r => ruleLoopSatisfied r t_norm both_norm) _BAKED_RULES i hi hsi
  refine ⟨k, hk, hki, hpk, ?_⟩
  rw [bakedScan_eq_find, hfind]
  rfl

theorem baked_rules_first_match_wins_witness :
    ∃ k, ∃ hk : k < _BAKED_RULES.length, k ≤ 108 ∧
      ruleLoopSatisfied (_BAKED_RULES.get ⟨k, hk⟩) "admin" "admin" = true ∧
      bakedScan "admin" "admin" _BAKED_RULES =
        some ((_BAKED_RULES.get ⟨k, hk⟩).code, (_BAKED_RULES.get ⟨k, hk⟩).occTitle,
          (_BAKED_RULES.get ⟨k, hk⟩).reason) :=
  baked_rules_first_match_wins "admin" "admin" 108 110 (by decide) (by decide) (by decide)
    (by decide) (by decide)

/-- C6 (counterexample): on the title text that normalizes to
    `admin officer receptionist`, the rules at positions 103 (rule_admin_exec)
    and 109 (rule_receptionist) both satisfy their primary-pattern and
    required-context conditions, position 103 is declared earlier, yet the
    engine returns the later rule's (code, title): the loop skips
    rule_admin_exec because the text does not mention exec. -/
theorem earlier_satisfied_rule_does_not_win :
    _normalize "admin officer receptionist" = "admin officer receptionist" ∧
    (_BAKED_RULES[103]?).map (fun r =>
      (rulePatternCueSatisfied r "admin officer receptionist" "admin officer receptionist",
        r.code, r.occTitle, r.reason)) =
      some (true, "41101", "General office clerk", "rule_admin_exec") ∧
    (_BAKED_RULES[109]?).map (fun r =>
      (rulePatternCueSatisfied r "admin officer receptionist" "admin officer receptionist",
        r.code, r.occTitle, r.reason)) =
      some (true, "42261", "Receptionist", "rule_receptionist") ∧
    (103 : Nat) < 109 ∧
    _apply_baked_rules "admin officer receptionist" "" =
      some ("42261", "Receptionist", "rule_receptionist") ∧
    (("42261", "Receptionist") : String × String) ≠ ("41101", "General office clerk") := by
  refine ⟨by decide, by decide, by decide, by decide, by decide, by decide⟩

-- ---------- the empty-input case (claim C4) ----------

theorem apply_baked_rules_empty : _apply_baked_rules "" "" = none := by decide

theorem xcodeStage_empty : xcodeStage "" "" = none := by decide

/-- C4: for every query whose title text and duties text are both empty after
    stripping (given that neither the expert map nor the title-lookup map has
    an entry keyed by the empty normalized title), the cascade returns the
    reserved no-information code X2000 with confidence exactly 1.0 and the
    `No Input` strategy label. -/
theorem empty_query_gives_no_information_code (title_text0 duties_text0 : String)
    (defs : List TaxRec) (title_map : List (String × TaxRec)) (expert_map : List ExpertEntry)
    (min_score_0_to_1 : Q) (edu_text_for_row occ_group_hint_raw company_industry : String)
    (shortlist : String → Option (List Nat))
    (ht : pyStrip title_text0 = "") (hd : pyStrip duties_text0 = "")
    (hexp : expert_map.find? (fun e => e.normTitle = "") = none)
    (htm : title_map.find? (fun p => p.1 = "") = none) :
    best_match_duties_priority title_text0 duties_text0 defs title_map expert_map
        min_score_0_to_1 edu_text_for_row occ_group_hint_raw company_industry shortlist =
      ⟨"X2000", xTitle "X2000", 1.0, "xcode-noinfo", [], "No Input"⟩ := by
  have hn : _normalize "" = "" := by decide
  have hv : _validate_expert_match "" "" expert_map defs = none := by
    simp only [_validate_expert_match, hn, hexp]
  have he : exactTitleStage title_map "" = none := by
    simp only [exactTitleStage, htm]
  simp only [best_match_duties_priority, ht, hd, hn, apply_baked_rules_empty, hv, he,
    xcodeStage_empty]
  rfl

theorem empty_query_gives_no_information_code_witness :
    best_match_duties_priority "" "" c7defs c7titleMap [] 0.4 "" "" "" (fun _ => none) =
      ⟨"X2000", xTitle "X2000", 1.0, "xcode-noinfo", [], "No Input"⟩ :=
  empty_query_gives_no_information_code "" "" c7defs c7titleMap [] 0.4 "" "" ""
    (fun _ => none) (by decide) (by decide) rfl (by decide)

-- ---------- the exact-title stage (claim C5) ----------

/-- C5: a query resolved by the Exact Title stage always carries confidence
    exactly 1.0 and a 5-digit leaf code, and a title-map hit whose owning
    record is not a 5-digit leaf is never accepted by this stage (the stage
    returns nothing for it). -/
theorem exact_title_stage_confident_leaf (title_map : List (String × TaxRec))
    (norm_title : String) :
    (∀ r : MatchResult, exactTitleStage title_map norm_title = some r →
      r.confidence = 1.0 ∧ is5dCode r.code = true) ∧
    (∀ p : String × TaxRec, title_map.find? (fun q => q.1 = norm_title) = some p →
      recIs5d p.2 = false → exactTitleStage title_map norm_title = none) := by
  constructor
  · intro r hr
    unfold exactTitleStage at hr
    split at hr
    · rename_i p hfind
      split at hr
      · rename_i h5
        cases hr
        exact ⟨rfl, h5⟩
      · exact absurd hr (by simp)
    · exact absurd hr (by simp)
  · intro p hf h5
    unfold exactTitleStage
    rw [hf]
    show (if recIs5d p.2 = true then
        some (⟨p.2.code, p.2.title, 1.0, "Exact Title Match", [], "Exact Title Match"⟩ :
          MatchResult)
      else none) = none
    rw [if_neg (by rw [h5]; exact Bool.false_ne_true)]

theorem exact_title_stage_confident_leaf_witness :
    ((⟨"11111", "flumvor", 1.0, "Exact Title Match", [], "Exact Title Match"⟩ :
        MatchResult).confidence = 1.0 ∧
      is5dCode (⟨"11111", "flumvor", 1.0, "Exact Title Match", [], "Exact Title Match"⟩ :
        MatchResult).code = true) ∧
    exactTitleStage c7titleMap "kraven" = none :=
  ⟨(exact_title_stage_confident_leaf c7titleMap "flumvor").1
      ⟨"11111", "flumvor", 1.0, "Exact Title Match", [], "Exact Title Match"⟩ (by decide),
    (exact_title_stage_confident_leaf c7titleMap "kraven").2 ("kraven", recC)
      (by decide) (by decide)⟩

-- ---------- the forced-assignment guard (claim C3) ----------

/-- C3: on the statistical path, when the selection made after the 4-digit
    parent fallback still scores below the acceptance threshold and its code
    does not start with the reserved X prefix, the forced-assignment guard
    replaces the code by exactly X1000. -/
theorem forced_assignment_substitutes_x1000 (title_text duties_text : String)
    (defs : List TaxRec) (min_score_0_to_1 : Q) (edu_text_for_row : String)
    (group_hint : Option String) (company_industry : String)
    (shortlist : String → Option (List Nat))
    (hlow : (statSelect title_text duties_text defs min_score_0_to_1 edu_text_for_row
      group_hint company_industry shortlist).score < min_score_0_to_1)
    (hX : pyStartsWith (statSelect title_text duties_text defs min_score_0_to_1
      edu_text_for_row group_hint company_industry shortlist).code "X" = false) :
    (statPath title_text duties_text defs min_score_0_to_1 edu_text_for_row
      group_hint company_industry shortlist).code = "X1000" := by
  have hc : ((statSelect title_text duties_text defs min_score_0_to_1 edu_text_for_row
        group_hint company_industry shortlist).score < min_score_0_to_1 &&
      !(pyStartsWith (statSelect title_text duties_text defs min_score_0_to_1
        edu_text_for_row group_hint company_industry shortlist).code "X")) = true := by
    rw [decide_eq_true hlow, hX]
    rfl
  simp only [statPath, hc, if_true]

set_option maxRecDepth 100000 in
theorem forced_assignment_substitutes_x1000_witness :
    (statPath "z q v" "kraven" c7defs 0.9 "" none "" (fun _ => none)).code = "X1000" :=
  forced_assignment_substitutes_x1000 "z q v" "kraven" c7defs 0.9 "" none ""
    (fun _ => none) (by decide) (by decide)

-- ---------- the candidate shortlist (claim C7) ----------

set_option maxRecDepth 100000 in
set_option maxHeartbeats 1000000 in
/-- C7 (counterexample): with the taxonomy `c7defs` and acceptance threshold
    0.05, the query with title `z q v` and duties `kraven` is classified as
    11111 when the modelled TF-IDF shortlist is available (only record 11111
    shares an index vocabulary term with the query, so only it is scored) but
    as 22222 when the index is unavailable and every leaf is scored: the
    shortlist changes the selected code, so it is not a pure performance
    optimization. -/
theorem shortlist_changes_selected_code :
    (best_match_duties_priority "z q v" "kraven" c7defs c7titleMap [] 0.05 "" "" ""
        (fun q => tfidfTopkModel (tfidfDocs c7defs) 150 q)).code = "11111" ∧
    (best_match_duties_priority "z q v" "kraven" c7defs c7titleMap [] 0.05 "" "" ""
        (fun _ => none)).code = "22222" ∧
    ("11111" : String) ≠ "22222" :=
  ⟨by decide, by decide, by decide⟩

theorem Q.not_lt_self (a : Q) : ¬ a < a := by
  show ¬ a.num * (a.den : Int) < a.num * (a.den : Int)
  exact Int.lt_irrefl _

theorem Q.lt_asymm {a b : Q} (h : a < b) : ¬ b < a := Int.lt_asymm h

/-- One step of the best-candidate fold. -/
def bfStep (f : TaxRec → Q) (acc : Q × Option TaxRec) (y : TaxRec) : Q × Option TaxRec :=
  if acc.1 < f y then (f y, some y) else acc

theorem foldl_bfStep_stay (f : TaxRec → Q) :
    ∀ (l : List TaxRec) (acc : Q × Option TaxRec), (∀ x ∈ l, ¬ acc.1 < f x) →
      List.foldl (bfStep f) acc l = acc
  | [], _, _ => rfl
  | a :: l, acc, h => by
    rw [List.foldl_cons]
    have ha : bfStep f acc a = acc := by
      unfold bfStep
      rw [if_neg (h a (List.mem_cons_self a l))]
    rw [ha]
    exact foldl_bfStep_stay f l acc (fun x hx => h x (List.mem_cons_of_mem a hx))

theorem foldl_bfStep_reach (f : TaxRec → Q) :
    ∀ (l : List TaxRec) (acc : Q × Option TaxRec) (rb : TaxRec), rb ∈ l →
      acc.1 < f rb → (∀ x ∈ l, x ≠ rb → f x < f rb) →
      List.foldl (bfStep f) acc l = (f rb, some rb)
  | [], _, rb, hmem, _, _ => absurd hmem (List.not_mem_nil rb)
  | a :: l, acc, rb, hmem, hacc, hmax => by
    rw [List.foldl_cons]
    by_cases hab : a = rb
    · subst hab
      have hstep : bfStep f acc a = (f a, some a) := by
        unfold bfStep
        rw [if_pos hacc]
      rw [hstep]
      apply foldl_bfStep_stay
      intro x hx
      by_cases hxa : x = a
      · subst hxa
        exact Q.not_lt_self _
      · exact Q.lt_asymm (hmax x (List.mem_cons_of_mem a hx) hxa)
    · have hmem2 : rb ∈ l := by
        cases List.mem_cons.mp hmem with
        | inl h => exact absurd h.symm hab
        | inr h => exact h
      have hacc2 : (bfStep f acc a).1 < f rb := by
        unfold bfStep
        by_cases hlt : acc.1 < f a
        · rw [if_pos hlt]
          exact hmax a (List.mem_cons_self a l) hab
        · rw [if_neg hlt]
          exact hacc
      exact foldl_bfStep_reach f l (bfStep f acc a) rb hmem2 hacc2
        (fun x hx hxr => hmax x (List.mem_cons_of_mem a hx) hxr)

theorem bestFold_eq_of_max (scorer : TaxRec → Q × Nat) (l : List TaxRec) (rb : TaxRec)
    (hmem : rb ∈ l) (hneg : (-1 : Q) < (scorer rb).1)
    (hmax : ∀ x ∈ l, x ≠ rb → (scorer x).1 < (scorer rb).1) :
    bestFold scorer l = ((scorer rb).1, some rb) :=
  foldl_bfStep_reach (fun r => (scorer r).1) l ((-1 : Q), none) rb hmem hneg hmax

theorem mem_filter_of_shortlist (defs : List TaxRec) (idxs : List Nat) (r : TaxRec)
    (h : r ∈ (idxs.filterMap (fun i => defs.get? i)).filter recIs5d) :
    r ∈ defs.filter recIs5d := by
  obtain ⟨hmem, h5⟩ := List.mem_filter.mp h
  obtain ⟨i, _, hget⟩ := List.mem_filterMap.mp hmem
  exact List.mem_filter.mpr ⟨List.get?_mem hget, h5⟩

/-- C7 (amended): the shortlist cannot change the selected code when the
    retrieved candidate set still contains the strict best candidate: if some
    5-digit record scores strictly above every other 5-digit record, clears
    the acceptance threshold, and is retrieved by the shortlist, then the
    statistical selection picks its code both with the shortlist and with the
    index unavailable.  (The unconditional form of the claim is refuted by
    the counterexample: a shortlist that drops the best-scoring leaf changes
    the result.) -/
theorem shortlist_preserves_unique_strict_best (title_text duties_text : String)
    (defs : List TaxRec) (min_score_0_to_1 : Q) (edu_text_for_row : String)
    (group_hint : Option String) (company_industry : String)
    (shortlist : String → Option (List Nat)) (idxs : List Nat) (rbest : TaxRec)
    (hsl : shortlist (pyStrip (title_text ++ " " ++ duties_text)) = some idxs)
    (hmemS : rbest ∈ (idxs.filterMap (fun i => defs.get? i)).filter recIs5d)
    (hmemA : rbest ∈ defs.filter recIs5d)
    (hneg : (-1 : Q) < (rowScorer title_text duties_text edu_text_for_row group_hint
      company_industry rbest).1)
    (hmaxA : ∀ r ∈ defs.filter recIs5d, r ≠ rbest →
      (rowScorer title_text duties_text edu_text_for_row group_hint company_industry r).1 <
      (rowScorer title_text duties_text edu_text_for_row group_hint company_industry rbest).1)
    (hbar : ¬ (rowScorer title_text duties_text edu_text_for_row group_hint
      company_industry rbest).1 < min_score_0_to_1) :
    (statSelect title_text duties_text defs min_score_0_to_1 edu_text_for_row group_hint
      company_industry shortlist).code = rbest.code ∧
    (statSelect title_text duties_text defs min_score_0_to_1 edu_text_for_row group_hint
      company_industry (fun _ => none)).code = rbest.code := by
  have hbfS : bestFold (rowScorer title_text duties_text edu_text_for_row group_hint
      company_industry) ((idxs.filterMap (fun i => defs.get? i)).filter recIs5d) =
      ((rowScorer title_text duties_text edu_text_for_row group_hint company_industry
        rbest).1, some rbest) :=
    bestFold_eq_of_max _ _ rbest hmemS hneg
      (fun x hx hxr => hmaxA x (mem_filter_of_shortlist defs idxs x hx) hxr)
  have hbfA : bestFold (rowScorer title_text duties_text edu_text_for_row group_hint
      company_industry) (defs.filter recIs5d) =
      ((rowScorer title_text duties_text edu_text_for_row group_hint company_industry
        rbest).1, some rbest) :=
    bestFold_eq_of_max _ _ rbest hmemA hneg hmaxA
  constructor
  · simp only [statSelect, hsl, hbfS, statSelPick]
    rw [if_neg hbar]
  · simp only [statSelect, hbfA, statSelPick]
    rw [if_neg hbar]

set_option maxRecDepth 100000 in
theorem shortlist_preserves_unique_strict_best_witness :
    (statSelect "flumvor" "" [recA] 0.0 "" none "" (fun _ => some [0])).code = recA.code ∧
    (statSelect "flumvor" "" [recA] 0.0 "" none "" (fun _ => none)).code = recA.code :=
  shortlist_preserves_unique_strict_best "flumvor" "" [recA] 0.0 "" none ""
    (fun _ => some [0]) [0] recA rfl (by decide) (by decide) (by decide)
    (fun r hr hne => absurd (List.mem_singleton.mp (List.mem_filter.mp hr).1) hne)
    (by decide)

-- ---------- the industry-context multiplier (claim C8) ----------

theorem Q.lt_iff_toRat {a b : Q} (ha : 0 < a.den) (hb : 0 < b.den) :
    a < b ↔ a.toRat < b.toRat := by
  show a.num * (b.den : Int) < b.num * (a.den : Int) ↔ _
  rw [Q.toRat, Q.toRat,
    div_lt_div_iff₀ (by exact_mod_cast ha) (by exact_mod_cast hb)]
  constructor <;> intro h <;> exact_mod_cast h

theorem Q.natCast_div (i n : Nat) (hn : n ≠ 0) :
    ((i : Q)) / ((n : Q)) = ⟨(i : Int), n⟩ := by
  show (if ((n : Q)).num = 0 then (⟨0, 1⟩ : Q)
    else if 0 ≤ ((n : Q)).num then
      ⟨((i : Q)).num * ((n : Q)).den, ((i : Q)).den * ((n : Q)).num.natAbs⟩
    else ⟨-(((i : Q)).num * ((n : Q)).den), ((i : Q)).den * ((n : Q)).num.natAbs⟩) =
    (⟨(i : Int), n⟩ : Q)
  have h1 : ((n : Q)).num = (n : Int) := rfl
  rw [h1, if_neg (by exact_mod_cast hn), if_pos (by exact_mod_cast Nat.zero_le n)]
  show (⟨(i : Int) * 1, 1 * (Int.natAbs (n : Int))⟩ : Q) = _
  rw [Int.mul_one, Nat.one_mul, Int.natAbs_ofNat]

theorem Q.toRat_one : (1.0 : Q).toRat = 1 := by
  have h : (1.0 : Q) = ⟨10, 10⟩ := rfl
  rw [h]
  show ((10 : Int) : ℚ) / ((10 : Nat) : ℚ) = 1
  norm_num

theorem Q.toRat_six_fifths : (1.20 : Q).toRat = 6 / 5 := by
  have h : (1.20 : Q) = ⟨120, 100⟩ := rfl
  rw [h]
  show ((120 : Int) : ℚ) / ((100 : Nat) : ℚ) = 6 / 5
  norm_num

theorem Q.toRat_seven_fifths : (1.40 : Q).toRat = 7 / 5 := by
  have h : (1.40 : Q) = ⟨140, 100⟩ := rfl
  rw [h]
  show ((140 : Int) : ℚ) / ((100 : Nat) : ℚ) = 7 / 5
  norm_num

theorem Q.toRat_mk_nat (i n : Nat) : ((⟨(i : Int), n⟩ : Q)).toRat = (i : ℚ) / (n : ℚ) := by
  show ((i : Int) : ℚ) / ((n : Nat) : ℚ) = (i : ℚ) / (n : ℚ)
  push_cast
  rfl

theorem Q.toRat_three_quarters : (0.75 : Q).toRat = 3 / 4 := by
  have h : (0.75 : Q) = ⟨75, 100⟩ := rfl
  rw [h]
  show ((75 : Int) : ℚ) / ((100 : Nat) : ℚ) = 3 / 4
  norm_num

theorem Q.toRat_two_fifths : (0.40 : Q).toRat = 2 / 5 := by
  have h : (0.40 : Q) = ⟨40, 100⟩ := rfl
  rw [h]
  show ((40 : Int) : ℚ) / ((100 : Nat) : ℚ) = 2 / 5
  norm_num

theorem industryOverlapFrac_toRat (company : String) (rec : TaxRec) :
    (industryOverlapFrac company rec).toRat =
      ((sInter (_sector_cues_from_text company) (recSectorCues rec)).length : ℚ) /
        ((recSectorCues rec).length : ℚ) := by
  unfold industryOverlapFrac
  by_cases hn : (recSectorCues rec).length = 0
  · rw [if_pos hn, hn, Nat.cast_zero, div_zero]
    show ((0 : Int) : ℚ) / ((1 : Nat) : ℚ) = 0
    norm_num
  · rw [if_neg hn, Q.natCast_div _ _ hn, Q.toRat_mk_nat]

theorem industryStep_mono {x y : ℚ} (h : x ≤ y) : industryStep x ≤ industryStep y := by
  unfold industryStep
  split_ifs <;> first | linarith | norm_num

theorem industryStep_values (x : ℚ) :
    industryStep x = 1 ∨ industryStep x = 6 / 5 ∨ industryStep x = 7 / 5 := by
  unfold industryStep
  split_ifs <;> simp

theorem industryStep_main (I N : Nat) (hN : N ≠ 0) :
    (if (0.75 : Q) < (⟨(I : Int), N⟩ : Q) then (1.40 : Q)
      else if (0.40 : Q) < (⟨(I : Int), N⟩ : Q) then (1.20 : Q) else (1.0 : Q)).toRat =
      industryStep ((I : ℚ) / (N : ℚ)) := by
  have hdF : 0 < ((⟨(I : Int), N⟩ : Q)).den := Nat.pos_of_ne_zero hN
  have h75 : ((0.75 : Q) < (⟨(I : Int), N⟩ : Q)) ↔ (3 / 4 : ℚ) < (I : ℚ) / (N : ℚ) := by
    rw [Q.lt_iff_toRat (by decide) hdF, Q.toRat_three_quarters, Q.toRat_mk_nat]
  have h40 : ((0.40 : Q) < (⟨(I : Int), N⟩ : Q)) ↔ (2 / 5 : ℚ) < (I : ℚ) / (N : ℚ) := by
    rw [Q.lt_iff_toRat (by decide) hdF, Q.toRat_two_fifths, Q.toRat_mk_nat]
  unfold industryStep
  by_cases h1 : (0.75 : Q) < (⟨(I : Int), N⟩ : Q)
  · rw [if_pos h1, if_pos (h75.mp h1), Q.toRat_seven_fifths]
  · rw [if_neg h1, if_neg (fun hq => h1 (h75.mpr hq))]
    by_cases h2 : (0.40 : Q) < (⟨(I : Int), N⟩ : Q)
    · rw [if_pos h2, if_pos (h40.mp h2), Q.toRat_six_fifths]
    · rw [if_neg h2, if_neg (fun hq => h2 (h40.mpr hq)), Q.toRat_one]

set_option maxRecDepth 100000 in
set_option maxHeartbeats 1000000 in
theorem industry_multiplier_eq_step (company : String) (rec : TaxRec) :
    (_get_industry_multiplier company rec).toRat =
      industryStep ((industryOverlapFrac company rec).toRat) := by
  have hstep0 : industryStep 0 = 1 := by
    unfold industryStep
    norm_num
  rw [industryOverlapFrac_toRat]
  simp only [_get_industry_multiplier]
  by_cases hce : company.isEmpty = true
  · rw [if_pos hce]
    have hcomp : company = "" := (String.isEmpty_iff company).mp hce
    subst hcomp
    have hcue : _sector_cues_from_text "" = [] := by decide
    rw [hcue]
    have hsi : sInter [] (recSectorCues rec) = [] := rfl
    rw [hsi]
    simp only [List.length_nil, Nat.cast_zero, zero_div, hstep0, Q.toRat_one]
  · rw [if_neg hce]
    by_cases hemp : ((_sector_cues_from_text company).isEmpty ||
        (recSectorCues rec).isEmpty) = true
    · rw [if_pos hemp]
      cases (Bool.or_eq_true _ _).mp hemp with
      | inl hA =>
        have hA2 : _sector_cues_from_text company = [] := List.isEmpty_iff.mp hA
        rw [hA2]
        have hsi : sInter [] (recSectorCues rec) = [] := rfl
        rw [hsi]
        simp only [List.length_nil, Nat.cast_zero, zero_div, hstep0, Q.toRat_one]
      | inr hB =>
        have hB2 : recSectorCues rec = [] := List.isEmpty_iff.mp hB
        rw [hB2]
        simp only [List.length_nil, Nat.cast_zero, div_zero, hstep0, Q.toRat_one]
    · rw [if_neg hemp]
      have hN : (recSectorCues rec).length ≠ 0 := by
        intro h0
        apply hemp
        rw [List.eq_nil_of_length_eq_zero h0]
        simp
      rw [Q.natCast_div _ _ hN]
      exact industryStep_main _ _ hN

/-- C8: the industry-context multiplier is monotonic non-decreasing in the
    sector-cue overlap fraction, and takes only the graduated rational values
    1 (none or weak overlap), 6/5 (moderate) and 7/5 (strong). -/
theorem industry_multiplier_monotone_graduated (company1 company2 : String) (rec : TaxRec)
    (hle : (industryOverlapFrac company1 rec).toRat ≤
      (industryOverlapFrac company2 rec).toRat) :
    ((_get_industry_multiplier company1 rec).toRat ≤
      (_get_industry_multiplier company2 rec).toRat) ∧
    ((_get_industry_multiplier company1 rec).toRat = 1 ∨
      (_get_industry_multiplier company1 rec).toRat = 6 / 5 ∨
      (_get_industry_multiplier company1 rec).toRat = 7 / 5) := by
  rw [industry_multiplier_eq_step, industry_multiplier_eq_step]
  exact ⟨industryStep_mono hle, industryStep_values _⟩

theorem industry_multiplier_monotone_graduated_witness :
    ((_get_industry_multiplier "care" recA).toRat ≤
      (_get_industry_multiplier "care" recA).toRat) ∧
    ((_get_industry_multiplier "care" recA).toRat = 1 ∨
      (_get_industry_multiplier "care" recA).toRat = 6 / 5 ∨
      (_get_industry_multiplier "care" recA).toRat = 7 / 5) :=
  industry_multiplier_monotone_graduated "care" "care" recA (le_refl _)

-- ---------- totality of the cascade (claim C2) ----------

theorem baked_rules_codes_nonempty : _BAKED_RULES.all (fun r => !(r.code == "")) = true := by
  decide

theorem ne_empty_of_isEmpty_false (s : String) (h : s.isEmpty = false) : s ≠ "" := by
  intro he
  subst he
  exact absurd h (by decide)

theorem string_data_ne_nil (s : String) (h : s ≠ "") : s.data ≠ [] := by
  intro hd
  apply h
  cases s with
  | mk data =>
    cases hd
    rfl

theorem pySliceTo_ne_empty (s : String) (h : s ≠ "") : pySliceTo s 4 ≠ "" := by
  have hd := string_data_ne_nil s h
  cases hs : s.data with
  | nil => exact absurd hs hd
  | cons a l =>
    unfold pySliceTo
    rw [hs]
    intro he
    have h0 : ((a :: l).take 4) = [] := congrArg String.data he
    have h2 : (a :: l).take 4 = a :: l.take 3 := rfl
    rw [h2] at h0
    exact List.noConfusion h0

theorem ne_empty_of_is5d (c : String) (h : is5dCode c = true) : c ≠ "" := by
  intro he
  subst he
  exact absurd h (by decide)

theorem bakedScan_code_ne (t b : String) (rules : List BakedRule)
    (hall : rules.all (fun r => !(r.code == "")) = true) (c ti rsn : String)
    (h : bakedScan t b rules = some (c, ti, rsn)) : c ≠ "" := by
  rw [bakedScan_eq_find] at h
  rcases hk : rules.find? (fun r => ruleLoopSatisfied r t b) with _ | r
  · rw [hk] at h
    exact Option.noConfusion h
  · rw [hk] at h
    have heq2 : (r.code, r.occTitle, r.reason) = (c, ti, rsn) := Option.some.inj h
    cases heq2
    have hr : r ∈ rules := List.mem_of_find?_eq_some hk
    have hb := List.all_eq_true.mp hall r hr
    have hbf : (r.code == "") = false := by simpa using hb
    exact beq_eq_false_iff_ne.mp hbf

theorem bakedCompound_code_ne (t b c ti rsn : String)
    (h : bakedCompound t b = some (c, ti, rsn)) : c ≠ "" := by
  simp only [bakedCompound] at h
  split_ifs at h <;>
    first
    | (cases h; decide)
    | exact Option.noConfusion h

theorem apply_baked_rules_code_ne (t d c ti rsn : String)
    (h : _apply_baked_rules t d = some (c, ti, rsn)) : c ≠ "" := by
  simp only [_apply_baked_rules] at h
  cases hbs : bakedScan (_normalize t) (pyStrip (_normalize t ++ " " ++ _normalize d))
      _BAKED_RULES with
  | some res =>
    rw [hbs] at h
    have h2 : res = (c, ti, rsn) := Option.some.inj h
    subst h2
    exact bakedScan_code_ne _ _ _BAKED_RULES baked_rules_codes_nonempty c ti rsn hbs
  | none =>
    rw [hbs] at h
    exact bakedCompound_code_ne _ _ c ti rsn h

set_option maxHeartbeats 2000000 in
theorem validate_expert_code_mem (t d : String) (em : List ExpertEntry) (defs : List TaxRec)
    (c ti : String) (h : _validate_expert_match t d em defs = some (c, ti)) :
    ∃ e, e ∈ em ∧ c = e.ssocCode := by
  simp only [_validate_expert_match] at h
  split at h
  next heq => exact Option.noConfusion h
  next e heq =>
    have hmem : e ∈ em := List.mem_of_find?_eq_some heq
    split at h
    next heq2 =>
      have h2 : (e.ssocCode, e.ssocTitle) = (c, ti) := Option.some.inj h
      cases h2
      exact ⟨e, hmem, rfl⟩
    next candidateRec heq2 =>
      split_ifs at h <;>
        first
        | (have h2 : (e.ssocCode, e.ssocTitle) = (c, ti) := Option.some.inj h
           cases h2
           exact ⟨e, hmem, rfl⟩)
        | exact Option.noConfusion h

theorem exactTitleStage_code_5d (title_map : List (String × TaxRec)) (nt : String)
    (r : MatchResult) (h : exactTitleStage title_map nt = some r) : is5dCode r.code = true := by
  unfold exactTitleStage at h
  split at h
  next p heq =>
    split at h
    next h5 =>
      cases h
      exact h5
    next => exact Option.noConfusion h
  next => exact Option.noConfusion h

theorem xcodeStage_code_ne (d t : String) (r : MatchResult)
    (h : xcodeStage d t = some r) : r.code ≠ "" := by
  unfold xcodeStage at h
  split at h
  next c t2 heq =>
    split at h
    next hor =>
      cases h
      show c ≠ ""
      cases (Bool.or_eq_true _ _).mp hor with
      | inl h1 =>
        cases (Bool.or_eq_true _ _).mp h1 with
        | inl h2 =>
          have := of_decide_eq_true h2
          subst this
          decide
        | inr h2 =>
          have := of_decide_eq_true h2
          subst this
          decide
      | inr h1 =>
        have := of_decide_eq_true h1
        subst this
        decide
    next => exact Option.noConfusion h
  next => exact Option.noConfusion h

theorem foldl_bfStep_mem (f : TaxRec → Q) :
    ∀ (l : List TaxRec) (acc : Q × Option TaxRec) (r : TaxRec),
      (List.foldl (bfStep f) acc l).2 = some r → acc.2 = some r ∨ r ∈ l
  | [], _, _, h => Or.inl h
  | a :: l, acc, r, h => by
    rw [List.foldl_cons] at h
    cases foldl_bfStep_mem f l (bfStep f acc a) r h with
    | inr hm => exact Or.inr (List.mem_cons_of_mem a hm)
    | inl hs =>
      unfold bfStep at hs
      by_cases hlt : acc.1 < f a
      · rw [if_pos hlt] at hs
        have har : a = r := Option.some.inj hs
        subst har
        exact Or.inr (List.mem_cons_self a l)
      · rw [if_neg hlt] at hs
        exact Or.inl hs

theorem bestFold_mem (scorer : TaxRec → Q × Nat) (l : List TaxRec) (r : TaxRec)
    (h : (bestFold scorer l).2 = some r) : r ∈ l := by
  cases foldl_bfStep_mem (fun x => (scorer x).1) l ((-1 : Q), none) r h with
  | inl hs => exact Option.noConfusion hs
  | inr hm => exact hm

theorem parent_code_ne (top5 : List Cand) (all_defs : List TaxRec) (scorer : TaxRec → Q × Nat)
    (s4 : Q) (r4 : TaxRec)
    (h : _find_best_4_digit_parent top5 all_defs scorer = some (s4, r4)) : r4.code ≠ "" := by
  simp only [_find_best_4_digit_parent] at h
  split_ifs at h
  cases hbf : (bestFold scorer (all_defs.filter (fun rec =>
      ((top5.filter (fun c => !c.code.isEmpty)).map
        (fun c => pySliceTo c.code 4)).contains rec.code))).2 with
  | none =>
    rw [hbf] at h
    exact Option.noConfusion h
  | some rr =>
    rw [hbf] at h
    have h2 : ((bestFold scorer (all_defs.filter (fun rec =>
        ((top5.filter (fun c => !c.code.isEmpty)).map
          (fun c => pySliceTo c.code 4)).contains rec.code))).1, rr) = (s4, r4) :=
      Option.some.inj h
    cases h2
    have hm : r4 ∈ all_defs.filter (fun rec =>
        ((top5.filter (fun c => !c.code.isEmpty)).map
          (fun c => pySliceTo c.code 4)).contains rec.code) :=
      bestFold_mem _ _ _ hbf
    have hcont := (List.mem_filter.mp hm).2
    have hmemc : r4.code ∈ (top5.filter (fun c => !c.code.isEmpty)).map
        (fun c => pySliceTo c.code 4) := List.mem_of_elem_eq_true hcont
    obtain ⟨cd, hcd, hcode⟩ := List.mem_map.mp hmemc
    have hfe : cd.code.isEmpty = false := by
      have := (List.mem_filter.mp hcd).2
      simpa using this
    rw [← hcode]
    exact pySliceTo_ne_empty cd.code (ne_empty_of_isEmpty_false cd.code hfe)

theorem statSelParent_code_ne (min_score_0_to_1 : Q) (label : String) (top_5 : List Cand)
    (best_s : Q) (bestR : TaxRec) (parent : Option (Q × TaxRec))
    (hb : bestR.code ≠ "") (hp : ∀ s4 r4, parent = some (s4, r4) → r4.code ≠ "") :
    (statSelParent min_score_0_to_1 label top_5 best_s bestR parent).code ≠ "" := by
  cases parent with
  | none =>
    simp only [statSelParent]
    exact hb
  | some p =>
    obtain ⟨s4, r4⟩ := p
    simp only [statSelParent]
    split
    · exact hp s4 r4 rfl
    · exact hb

theorem statSelPick_code_ne (min_score_0_to_1 : Q) (label : String) (top_5 : List Cand)
    (best_s : Q) (defs : List TaxRec) (scorer : TaxRec → Q × Nat) (best_r : Option TaxRec)
    (hbest : ∀ r, best_r = some r → r.code ≠ "")
    (hpar : ∀ s4 r4, _find_best_4_digit_parent top_5 defs scorer = some (s4, r4) →
      r4.code ≠ "") :
    (statSelPick min_score_0_to_1 label top_5 best_s defs scorer best_r).code ≠ "" := by
  cases best_r with
  | none =>
    simp only [statSelPick]
    exact (by decide : ("X1000" : String) ≠ "")
  | some bestR =>
    simp only [statSelPick]
    split
    · exact statSelParent_code_ne _ _ _ _ _ _ (hbest bestR rfl) hpar
    · exact hbest bestR rfl

theorem statSelect_code_ne (title_text duties_text : String) (defs : List TaxRec)
    (min_score_0_to_1 : Q) (edu_text_for_row : String) (group_hint : Option String)
    (company_industry : String) (shortlist : String → Option (List Nat)) :
    (statSelect title_text duties_text defs min_score_0_to_1 edu_text_for_row group_hint
      company_industry shortlist).code ≠ "" := by
  simp only [statSelect]
  split
  next idxs hsl =>
    exact statSelPick_code_ne _ _ _ _ _ _ _
      (fun r hr => ne_empty_of_is5d r.code
        ((List.mem_filter.mp (bestFold_mem _ _ r hr)).2))
      (fun s4 r4 hp => parent_code_ne _ _ _ s4 r4 hp)
  next hsl =>
    exact statSelPick_code_ne _ _ _ _ _ _ _
      (fun r hr => ne_empty_of_is5d r.code
        ((List.mem_filter.mp (bestFold_mem _ _ r hr)).2))
      (fun s4 r4 hp => parent_code_ne _ _ _ s4 r4 hp)

theorem statPath_code_ne (title_text duties_text : String) (defs : List TaxRec)
    (min_score_0_to_1 : Q) (edu_text_for_row : String) (group_hint : Option String)
    (company_industry : String) (shortlist : String → Option (List Nat)) :
    (statPath title_text duties_text defs min_score_0_to_1 edu_text_for_row group_hint
      company_industry shortlist).code ≠ "" := by
  simp only [statPath]
  split
  · exact (by decide : ("X1000" : String) ≠ "")
  · exact statSelect_code_ne title_text duties_text defs min_score_0_to_1 edu_text_for_row
      group_hint company_industry shortlist

/-- C2: classification is total with a non-empty code.  The cascade is a total
    Lean function, so no exception is possible by construction; moreover,
    provided every expert-map entry carries a non-empty curated code (as the
    loader guarantees for the shipped map), the returned occupation code is
    never the empty string, the worst case being the reserved code X1000 on
    the statistical path. -/
theorem classification_total_nonempty_code (title_text0 duties_text0 : String)
    (defs : List TaxRec) (title_map : List (String × TaxRec)) (expert_map : List ExpertEntry)
    (min_score_0_to_1 : Q) (edu_text_for_row occ_group_hint_raw company_industry : String)
    (shortlist : String → Option (List Nat))
    (hexp : expert_map.all (fun e => !(e.ssocCode == "")) = true) :
    (best_match_duties_priority title_text0 duties_text0 defs title_map expert_map
      min_score_0_to_1 edu_text_for_row occ_group_hint_raw company_industry
      shortlist).code ≠ "" := by
  simp only [best_match_duties_priority]
  cases hb : _apply_baked_rules (pyStrip title_text0) (pyStrip duties_text0) with
  | some res =>
    obtain ⟨c2, t2, rsn2⟩ := res
    exact apply_baked_rules_code_ne _ _ c2 t2 rsn2 hb
  | none =>
    cases hv : _validate_expert_match (pyStrip title_text0) (pyStrip duties_text0)
        expert_map defs with
    | some res =>
      obtain ⟨c2, t2⟩ := res
      obtain ⟨e, hmem, hc⟩ := validate_expert_code_mem _ _ _ _ c2 t2 hv
      have hb2 := List.all_eq_true.mp hexp e hmem
      have hne : e.ssocCode ≠ "" := by simpa using hb2
      show c2 ≠ ""
      rw [hc]
      exact hne
    | none =>
      cases he : exactTitleStage title_map (_normalize (pyStrip title_text0)) with
      | some r => exact ne_empty_of_is5d r.code (exactTitleStage_code_5d _ _ r he)
      | none =>
        cases hx : xcodeStage (pyStrip duties_text0) (pyStrip title_text0) with
        | some r => exact xcodeStage_code_ne _ _ r hx
        | none =>
          show (if ((pyStrip duties_text0).isEmpty && (pyStrip title_text0).isEmpty) = true
            then (⟨"X2000", xTitle "X2000", 1.0, "xcode-noinfo", [], "No Input"⟩ : MatchResult)
            else statPath (pyStrip title_text0) (pyStrip duties_text0) defs min_score_0_to_1
              edu_text_for_row (_parse_occ_group_hint occ_group_hint_raw) company_industry
              shortlist).code ≠ ""
          split
          · exact (by decide : ("X2000" : String) ≠ "")
          · exact statPath_code_ne _ _ _ _ _ _ _ _

theorem classification_total_nonempty_code_witness :
    (best_match_duties_priority "flumvor" "" c7defs c7titleMap [] 0.4 "" "" ""
      (fun _ => none)).code ≠ "" :=
  classification_total_nonempty_code "flumvor" "" c7defs c7titleMap [] 0.4 "" "" ""
    (fun _ => none) (by decide)
